import Mathlib

/-!
Shallow embedding of the video-generation workflow of the adsanity-backend
repository (NestJS / TypeScript).  External collaborators (the OpenAI SDK,
the Kie HTTP API, and the Google Cloud Storage client) are modelled as
oracles: explicit inputs describing the outcome of each network call.
Time is idealized: a status check consumes no time, and each call to
`delay(pollInterval)` advances the clock by exactly `pollInterval`
milliseconds (the assumption stated by the claims themselves).

Errors mirror the JavaScript situation: a thrown value is either a NestJS
`HttpException` (message + HTTP status code) or some other error
(a plain message).
-/

/-- HTTP status code `HttpStatus.REQUEST_TIMEOUT`. -/
def REQUEST_TIMEOUT : Nat := 408

/-- HTTP status code `HttpStatus.INTERNAL_SERVER_ERROR`. -/
def INTERNAL_SERVER_ERROR : Nat := 500

/-- HTTP status code `HttpStatus.PAYLOAD_TOO_LARGE`. -/
def PAYLOAD_TOO_LARGE : Nat := 413

/-- A NestJS `HttpException`: a message and an HTTP status code. -/
structure HttpException where
  message : String
  status : Nat
  deriving DecidableEq, Repr

/-- A thrown JavaScript value: a NestJS `HttpException`, or any other error
(SDK rejections, `TypeError`s, ...), of which only the message is observed. -/
inductive JsError
  | http (e : HttpException)
  | other (message : String)
  deriving DecidableEq, Repr

/-- Ceiling division on naturals: the number of poll attempts that fit in a
window (`(a + b - 1) / b`). -/
def ceilDiv (a b : Nat) : Nat := (a + b - 1) / b

/-! ### OpenAI (Sora) provider: status polling

`OpenAiVideoService.pollForCompletion` and the identical monolithic
`VideoService.pollForVideoCompletion`.  Each loop iteration awaits
`openai.videos.retrieve(videoId)`; the outcome of the `k`-th retrieve call
is given by an oracle.  There is no try/catch inside this loop: a rejected
retrieve promise propagates out of the poll function. -/

/-- Outcome of one `openai.videos.retrieve` call: a video object carrying a
`status` and `progress`, or a rejection.  SDK rejections are not NestJS
`HttpException`s, so an error here is a `JsError.other`. -/
inductive OpenAiRetrieve
  | ok (status : String) (progress : Nat)
  | err (msg : String)
  deriving DecidableEq, Repr

/-- The fields of the poll result used by the orchestrator. -/
structure OpenAiPollResult where
  status : String
  progress : Nat
  deriving DecidableEq, Repr

/-- The timeout exception thrown by the OpenAI poller when the deadline
elapses. -/
def openAiTimeoutError : HttpException :=
  { message := "Video generation timeout - please try again", status := REQUEST_TIMEOUT }

/-- Loop body of `pollForCompletion`: `while (Date.now() < endTime)` do one
retrieve; on `completed`/`failed` return; otherwise `delay(pollInterval)` and
loop.  `now` is the current clock, `k` the index of the next status check;
the returned `Nat` counts the status checks performed.  A retrieve rejection
propagates (there is no catch in this loop). -/
def openAiPollAux (retrieve : Nat → OpenAiRetrieve) (pollInterval : Nat)
    (hpos : 0 < pollInterval) (endTime now k : Nat) :
    Except JsError OpenAiPollResult × Nat :=
  if now < endTime then
    match retrieve k with
    | OpenAiRetrieve.err msg => (Except.error (JsError.other msg), k + 1)
    | OpenAiRetrieve.ok status progress =>
      if status = "completed" ∨ status = "failed" then
        (Except.ok { status := status, progress := progress }, k + 1)
      else
        openAiPollAux retrieve pollInterval hpos endTime (now + pollInterval) (k + 1)
  else
    (Except.error (JsError.http openAiTimeoutError), k)
termination_by endTime - now
decreasing_by omega

/-- `pollForCompletion(videoId, maxWaitTime, pollInterval)`: sets
`endTime = now + maxWaitTime` (clock origin 0) and runs the loop. -/
def pollForVideoCompletion (retrieve : Nat → OpenAiRetrieve)
    (maxWaitTime pollInterval : Nat) (hpos : 0 < pollInterval) :
    Except JsError OpenAiPollResult × Nat :=
  openAiPollAux retrieve pollInterval hpos maxWaitTime 0 0

/-! ### Kie provider: status check and polling

`KieVideoService.checkStatus` / the monolithic `checkKieVideoStatus`, and
`KieVideoService.pollForCompletion` / `pollForKieVideoCompletion`. -/

/-- The parsed Kie status payload (`KieStatusResponse` in the source):
`{ code, msg, data: { successFlag, response?: { resultUrls? } } }`. -/
structure KieStatusData where
  successFlag : Int
  resultUrls : Option (List String)
  deriving DecidableEq, Repr

/-- Top level of the parsed Kie status payload. -/
structure KieStatusResponse where
  code : Int
  msg : String
  data : KieStatusData
  deriving DecidableEq, Repr

/-- Body of a Kie status HTTP response: `response.json()` either rejects
(parse failure) or yields a parsed payload. -/
inductive KieStatusBody
  | parseErr (msg : String)
  | parsed (result : KieStatusResponse)
  deriving DecidableEq, Repr

/-- Outcome of one Kie status fetch: the fetch promise rejects (network
failure), or an HTTP response arrives with `response.ok` flag and a body. -/
inductive KieFetch
  | netErr (msg : String)
  | resp (respOk : Bool) (body : KieStatusBody)
  deriving DecidableEq, Repr

/-- `checkStatus(taskId)`: fetches the status URL, parses JSON, and returns
the payload when `response.ok && result.code === 200`, `null` otherwise;
both the fetch rejection and the parse rejection are caught and turned into
`null`.  The `Except` layer records that the TypeScript function could in
principle throw; this one never does. -/
def checkStatus (f : KieFetch) : Except JsError (Option KieStatusResponse) :=
  match f with
  | KieFetch.netErr _ => Except.ok none
  | KieFetch.resp respOk body =>
    match body with
    | KieStatusBody.parseErr _ => Except.ok none
    | KieStatusBody.parsed result =>
      if respOk ∧ result.code = 200 then Except.ok (some result)
      else Except.ok none

/-- The poll result record returned by the Kie poller:
`{ status: 'completed', videoUrls }` or `{ status: 'failed', error }`. -/
structure KiePollResult where
  status : String
  videoUrls : Option (List String) := none
  errorMsg : Option String := none
  deriving DecidableEq, Repr

/-- The timeout exception thrown by the Kie poller when the deadline
elapses. -/
def kieTimeoutError : HttpException :=
  { message := "Kie video generation timeout - please try again", status := REQUEST_TIMEOUT }

/-- Loop body of the Kie poller.  The whole iteration sits in a try/catch
whose catch logs and delays; `checkStatus` returning `null` also delays and
continues.  A payload with `successFlag === 1` returns `completed` with the
result URLs, `2`/`3` returns `failed` with the payload message, `0` and any
other flag log and continue.  The returned `Nat` counts status checks. -/
def kiePollAux (check : Nat → KieFetch) (pollInterval : Nat)
    (hpos : 0 < pollInterval) (deadline now k : Nat) :
    Except JsError KiePollResult × Nat :=
  if now < deadline then
    match checkStatus (check k) with
    | Except.error _ =>
      kiePollAux check pollInterval hpos deadline (now + pollInterval) (k + 1)
    | Except.ok none =>
      kiePollAux check pollInterval hpos deadline (now + pollInterval) (k + 1)
    | Except.ok (some result) =>
      if result.data.successFlag = 0 then
        kiePollAux check pollInterval hpos deadline (now + pollInterval) (k + 1)
      else if result.data.successFlag = 1 then
        (Except.ok { status := "completed", videoUrls := result.data.resultUrls }, k + 1)
      else if result.data.successFlag = 2 ∨ result.data.successFlag = 3 then
        (Except.ok { status := "failed", errorMsg := some result.msg }, k + 1)
      else
        kiePollAux check pollInterval hpos deadline (now + pollInterval) (k + 1)
  else
    (Except.error (JsError.http kieTimeoutError), k)
termination_by deadline - now
decreasing_by all_goals omega

/-- `pollForCompletion(taskId, maxWaitTime, pollInterval)` for Kie: sets
`deadline = now + maxWaitTime` (clock origin 0) and runs the loop. -/
def kiePollForCompletion (check : Nat → KieFetch)
    (maxWaitTime pollInterval : Nat) (hpos : 0 < pollInterval) :
    Except JsError KiePollResult × Nat :=
  kiePollAux check pollInterval hpos maxWaitTime 0 0

/-! ### Artifact store: image upload, video save, download-and-store

`VideoStorageService.uploadImage` / `saveVideo`, and the per-provider
download-and-store steps `OpenAiVideoService.streamVideoToBucket` /
`KieVideoService.downloadToBucket` (behaviorally identical to the inline
monolithic versions).  A video buffer is observed only through its byte
length, so it is modelled by that length. -/

/-- `MAX_VIDEO_SIZE = 100 * 1024 * 1024` bytes (100 MiB). -/
def MAX_VIDEO_SIZE : Nat := 100 * 1024 * 1024

/-- Outcome of a `file.save(...)` call against the storage client. -/
inductive StoreOutcome
  | ok
  | err (msg : String)
  deriving DecidableEq, Repr

/-- A record of one invocation of the storage client's save operation. -/
structure SaveCall where
  fileName : String
  size : Nat
  deriving DecidableEq, Repr

/-- Public URL derivation: `https://storage.googleapis.com/<bucket>/<key>`. -/
def publicUrl (bucket fileName : String) : String :=
  "https://storage.googleapis.com/" ++ bucket ++ "/" ++ fileName

/-- Object key used by the OpenAI path: `videos/<videoId>.mp4`. -/
def openAiVideoKey (videoId : String) : String :=
  "videos/" ++ videoId ++ ".mp4"

/-- Object key used by the Kie path: `videos/kie-<taskId>.mp4`. -/
def kieVideoKey (taskId : String) : String :=
  "videos/kie-" ++ taskId ++ ".mp4"

/-- The `PAYLOAD_TOO_LARGE` exception raised at the size check. -/
def payloadTooLargeError : HttpException :=
  { message := "Video generated is too large. Maximum size is 100MB.", status := PAYLOAD_TOO_LARGE }

/-- `VideoStorageService.saveVideo(buffer, fileName, metadata)`: rejects a
buffer longer than `MAX_VIDEO_SIZE` with a 413 before entering the try
block; otherwise invokes the storage client's save (recorded in the second
component) and returns the public URL, a save failure being caught and
rethrown as a 500. -/
def saveVideo (store : StoreOutcome) (bucket : String) (size : Nat)
    (fileName : String) : Except JsError String × List SaveCall :=
  if size > MAX_VIDEO_SIZE then
    (Except.error (JsError.http payloadTooLargeError), [])
  else
    match store with
    | StoreOutcome.ok =>
      (Except.ok (publicUrl bucket fileName), [{ fileName := fileName, size := size }])
    | StoreOutcome.err _ =>
      (Except.error (JsError.http
        { message := "Failed to upload video to storage", status := INTERNAL_SERVER_ERROR }),
       [{ fileName := fileName, size := size }])

/-- Outcome of `openai.videos.downloadContent` followed by reading the body:
the byte length of the downloaded artifact, or a rejection. -/
inductive DownloadOutcome
  | ok (size : Nat)
  | err (msg : String)
  deriving DecidableEq, Repr

/-- `OpenAiVideoService.streamVideoToBucket(videoId)` (the monolithic
`VideoService.streamVideoToBucket` behaves identically): downloads the
generated bytes and saves them under `videos/<videoId>.mp4`; its catch
block wraps every failure — including the 413 raised by the size check —
into a generic 500 `HttpException`. -/
def streamVideoToBucket (download : DownloadOutcome) (store : StoreOutcome)
    (bucket videoId : String) : Except JsError String × List SaveCall :=
  match download with
  | DownloadOutcome.err _ =>
    (Except.error (JsError.http
      { message := "Failed to upload video to storage", status := INTERNAL_SERVER_ERROR }), [])
  | DownloadOutcome.ok size =>
    match saveVideo store bucket size (openAiVideoKey videoId) with
    | (Except.ok url, calls) => (Except.ok url, calls)
    | (Except.error _, calls) =>
      (Except.error (JsError.http
        { message := "Failed to upload video to storage", status := INTERNAL_SERVER_ERROR }),
       calls)

/-- Body of the Kie video download response: reading the bytes either
rejects or yields a buffer of some length. -/
inductive KieDownloadBody
  | readErr (msg : String)
  | bytes (size : Nat)
  deriving DecidableEq, Repr

/-- Outcome of `fetch(videoUrl)` for a Kie result URL. -/
inductive KieDownloadFetch
  | netErr (msg : String)
  | resp (respOk : Bool) (statusText : String) (body : KieDownloadBody)
  deriving DecidableEq, Repr

/-- `KieVideoService.downloadToBucket(videoUrl, taskId)` (the monolithic
`downloadKieVideoToBucket` behaves identically): fetches the result URL,
checks `response.ok`, reads the bytes and saves them under
`videos/kie-<taskId>.mp4`.  Its catch block wraps every failure — the
URL-parse `TypeError` raised by `fetch` on a missing or empty URL, a
non-ok response, a read failure, and any error out of `saveVideo`
(including the 413) — into a generic 500 `HttpException`.  The `videoUrl`
argument is `none` when the caller indexed into an empty result list. -/
def downloadToBucket (fetchVideo : String → KieDownloadFetch)
    (store : StoreOutcome) (bucket : String) (videoUrl : Option String)
    (taskId : String) : Except JsError String × List SaveCall :=
  match videoUrl with
  | none =>
    (Except.error (JsError.http
      { message := "Failed to download and upload video from Kie", status := INTERNAL_SERVER_ERROR }), [])
  | some url =>
    if url = "" then
      (Except.error (JsError.http
        { message := "Failed to download and upload video from Kie", status := INTERNAL_SERVER_ERROR }), [])
    else
      match fetchVideo url with
      | KieDownloadFetch.netErr _ =>
        (Except.error (JsError.http
          { message := "Failed to download and upload video from Kie", status := INTERNAL_SERVER_ERROR }), [])
      | KieDownloadFetch.resp respOk _ body =>
        if respOk = false then
          (Except.error (JsError.http
            { message := "Failed to download and upload video from Kie", status := INTERNAL_SERVER_ERROR }), [])
        else
          match body with
          | KieDownloadBody.readErr _ =>
            (Except.error (JsError.http
              { message := "Failed to download and upload video from Kie", status := INTERNAL_SERVER_ERROR }), [])
          | KieDownloadBody.bytes size =>
            match saveVideo store bucket size (kieVideoKey taskId) with
            | (Except.ok url2, calls) => (Except.ok url2, calls)
            | (Except.error _, calls) =>
              (Except.error (JsError.http
                { message := "Failed to download and upload video from Kie", status := INTERNAL_SERVER_ERROR }),
               calls)

/-- `VideoStorageService.uploadImage(image)` / the monolithic
`uploadImageToBucket`: saves the image under
`images/<Date.now()>-<originalname>` and returns its public URL; any save
failure is caught and rethrown as a 500. -/
def uploadImage (store : StoreOutcome) (bucket : String) (timestamp : Nat)
    (originalname : String) : Except JsError String :=
  match store with
  | StoreOutcome.ok =>
    Except.ok (publicUrl bucket ("images/" ++ toString timestamp ++ "-" ++ originalname))
  | StoreOutcome.err _ =>
    Except.error (JsError.http
      { message := "Failed to upload image", status := INTERNAL_SERVER_ERROR })

/-! ### Job submission

`KieVideoService.createVideo` (refactored, no try/catch of its own) and the
monolithic `VideoService.createVideoWithKie` (try/catch wrapping
non-`HttpException` errors); OpenAI submission via `openai.videos.create`
(SDK call, no local handling). -/

/-- Body of the Kie submit HTTP response: parse rejection or the parsed
`{ code, msg, data: { taskId } }` payload.  The source checks
`response.ok` before parsing, so the body is only reached on an ok
response in the error-free order of the code. -/
inductive KieSubmitBody
  | parseErr (msg : String)
  | parsed (code : Int) (msg : String) (taskId : String)
  deriving DecidableEq, Repr

/-- Outcome of the Kie submit fetch. -/
inductive KieSubmitFetch
  | netErr (msg : String)
  | resp (respOk : Bool) (statusText : String) (body : KieSubmitBody)
  deriving DecidableEq, Repr

/-- `KieVideoService.createVideo(prompt, imageUrls)`: posts the request;
a non-ok response or a payload `code !== 200` raises a 500 `HttpException`
with the provider text; fetch and parse rejections propagate as plain
errors (this refactored service has no try/catch). -/
def kieCreateVideo (submit : KieSubmitFetch) : Except JsError String :=
  match submit with
  | KieSubmitFetch.netErr msg => Except.error (JsError.other msg)
  | KieSubmitFetch.resp respOk statusText body =>
    if respOk = false then
      Except.error (JsError.http
        { message := "Kie API error: " ++ statusText, status := INTERNAL_SERVER_ERROR })
    else
      match body with
      | KieSubmitBody.parseErr msg => Except.error (JsError.other msg)
      | KieSubmitBody.parsed code msg taskId =>
        if code = 200 then Except.ok taskId
        else
          Except.error (JsError.http
            { message := "Kie API error: " ++ msg, status := INTERNAL_SERVER_ERROR })

/-- Outcome of `openai.videos.create`: the created video object (whose
fields feed the final result), or an SDK rejection (never a NestJS
`HttpException`). -/
inductive OpenAiCreate
  | ok (id : String) (created_at : Nat) (model : String) (size : String) (seconds : String)
  | err (msg : String)
  deriving DecidableEq, Repr

/-! ### Generation orchestrator

`VideoService.generateVideo` and `VideoService.generateVideoWithKie`, in
both the refactored shape (delegating to the provider services) and the
monolithic shape, which differ observably in the handling of a missing
result URL and in the submit-error wrapping. -/

/-- The uniform result record (`VideoGenerationResult`). -/
structure VideoGenerationResult where
  videoId : String
  status : String
  createdAt : Nat
  downloadUrl : String
  model : String
  size : String
  seconds : String
  deriving DecidableEq, Repr

/-- The catch pattern shared by the orchestrator methods:
`if (error instanceof HttpException) throw error;` otherwise throw a
generic 500 with the given message. -/
def catchWrap (body : Except JsError α) (msg : String) : Except JsError α :=
  match body with
  | Except.ok r => Except.ok r
  | Except.error (JsError.http e) => Except.error (JsError.http e)
  | Except.error (JsError.other _) =>
    Except.error (JsError.http { message := msg, status := INTERNAL_SERVER_ERROR })

/-- The optional image-upload step at the head of each orchestration:
no image means nothing to do; otherwise the upload is awaited and its
failure aborts. -/
def uploadImageStep (image : Option String) (store : StoreOutcome)
    (bucket : String) (timestamp : Nat) : Except JsError Unit :=
  match image with
  | none => Except.ok ()
  | some name =>
    match uploadImage store bucket timestamp name with
    | Except.ok _ => Except.ok ()
    | Except.error e => Except.error e

/-- Environment of one `generateVideo` execution (OpenAI variant): the
optional input image (its original filename), and the outcome of each
external call the orchestration makes. -/
structure OpenAiGenEnv where
  image : Option String
  imageStore : StoreOutcome
  timestamp : Nat
  create : OpenAiCreate
  retrieve : Nat → OpenAiRetrieve
  download : DownloadOutcome
  videoStore : StoreOutcome
  bucket : String

/-- Try-block body of `VideoService.generateVideo(prompt, image?)`: upload
the input image when present, submit via `openai.videos.create`, poll with
a 5-minute deadline and 5-second interval, and on `completed` download and
store the artifact. -/
def generateVideoBody (env : OpenAiGenEnv) : Except JsError VideoGenerationResult :=
  match uploadImageStep env.image env.imageStore env.bucket env.timestamp with
  | Except.error e => Except.error e
  | Except.ok _ =>
    match env.create with
    | OpenAiCreate.err msg => Except.error (JsError.other msg)
    | OpenAiCreate.ok id created_at model size seconds =>
      match (pollForVideoCompletion env.retrieve (5 * 60 * 1000) 5000 (by decide)).1 with
      | Except.error e => Except.error e
      | Except.ok pr =>
        if pr.status = "completed" then
          match streamVideoToBucket env.download env.videoStore env.bucket id with
          | (Except.ok url, _) =>
            Except.ok { videoId := id, status := pr.status, createdAt := created_at,
                        downloadUrl := url, model := model, size := size, seconds := seconds }
          | (Except.error e, _) => Except.error e
        else if pr.status = "failed" then
          Except.error (JsError.http
            { message := "Video generation failed", status := INTERNAL_SERVER_ERROR })
        else
          Except.error (JsError.http
            { message := "Unknown error during video generation", status := INTERNAL_SERVER_ERROR })

/-- `VideoService.generateVideo(prompt, image?)`: the try-block body inside
the catch that rethrows `HttpException`s unchanged and wraps any other
error into a generic 500. -/
def generateVideo (env : OpenAiGenEnv) : Except JsError VideoGenerationResult :=
  catchWrap (generateVideoBody env) "Failed to generate video"

/-- Environment of one `generateVideoWithKie` execution: the optional
input image and the outcome of each external call. -/
structure KieGenEnv where
  image : Option String
  imageStore : StoreOutcome
  timestamp : Nat
  submit : KieSubmitFetch
  check : Nat → KieFetch
  fetchVideo : String → KieDownloadFetch
  videoStore : StoreOutcome
  bucket : String
  nowAt : Nat

/-- Refactored `VideoService.generateVideoWithKie(prompt, image?)`
(services split): upload the input image when present, submit via
`KieVideoService.createVideo`, poll with a 10-minute deadline and
10-second interval; on `completed`, take the first result URL
(`const [videoUrl] = pollResult.videoUrls || []`), failing with a 500 when
it is absent or empty (both are falsy), else download and store.  The
surrounding try/catch rethrows `HttpException`s and wraps anything else
into a generic 500. -/
def generateVideoWithKieBody (env : KieGenEnv) : Except JsError VideoGenerationResult :=
  match uploadImageStep env.image env.imageStore env.bucket env.timestamp with
  | Except.error e => Except.error e
  | Except.ok _ =>
    match kieCreateVideo env.submit with
    | Except.error e => Except.error e
    | Except.ok taskId =>
      match (kiePollForCompletion env.check (10 * 60 * 1000) 10000 (by decide)).1 with
      | Except.error e => Except.error e
      | Except.ok pr =>
        if pr.status = "completed" then
          match (pr.videoUrls.getD []).head? with
          | none =>
            Except.error (JsError.http
              { message := "Kie video URL not available", status := INTERNAL_SERVER_ERROR })
          | some u =>
            if u = "" then
              Except.error (JsError.http
                { message := "Kie video URL not available", status := INTERNAL_SERVER_ERROR })
            else
              match downloadToBucket env.fetchVideo env.videoStore env.bucket (some u) taskId with
              | (Except.ok url, _) =>
                Except.ok { videoId := taskId, status := pr.status, createdAt := env.nowAt,
                            downloadUrl := url, model := "veo3_fast",
                            size := "unknown", seconds := "unknown" }
              | (Except.error e, _) => Except.error e
        else if pr.status = "failed" then
          Except.error (JsError.http
            { message := "Kie video generation failed", status := INTERNAL_SERVER_ERROR })
        else
          Except.error (JsError.http
            { message := "Unknown error during Kie video generation", status := INTERNAL_SERVER_ERROR })

/-- Refactored `VideoService.generateVideoWithKie`: the try-block body
inside the catch that rethrows `HttpException`s and wraps anything else
into a generic 500. -/
def generateVideoWithKie (env : KieGenEnv) : Except JsError VideoGenerationResult :=
  catchWrap (generateVideoWithKieBody env) "Failed to generate video with Kie"

/-- Monolithic `VideoService.createVideoWithKie(prompt, image?)`: uploads
the image and posts the request inside a try/catch that rethrows
`HttpException`s (the image-upload 500, the provider 500s) and wraps any
other error into a 500 `Failed to create video with Kie`. -/
def createVideoWithKieMono (env : KieGenEnv) : Except JsError String :=
  catchWrap
    (match uploadImageStep env.image env.imageStore env.bucket env.timestamp with
     | Except.error e => Except.error e
     | Except.ok _ => kieCreateVideo env.submit)
    "Failed to create video with Kie"

/-- Monolithic `VideoService.generateVideoWithKie(prompt, image?)`: unlike
the refactored shape it indexes `pollResult.videoUrls[0]` without a guard;
a missing list makes that access throw a `TypeError` (caught by the outer
catch), and an empty list passes `undefined` into the download step, whose
`fetch` then throws (caught there, surfacing the generic download 500). -/
def generateVideoWithKieMonoBody (env : KieGenEnv) : Except JsError VideoGenerationResult :=
  match createVideoWithKieMono env with
  | Except.error e => Except.error e
  | Except.ok taskId =>
    match (kiePollForCompletion env.check (10 * 60 * 1000) 10000 (by decide)).1 with
    | Except.error e => Except.error e
    | Except.ok pr =>
      if pr.status = "completed" then
        match pr.videoUrls with
        | none =>
          Except.error (JsError.other "Cannot read properties of undefined (reading 0)")
        | some urls =>
          match downloadToBucket env.fetchVideo env.videoStore env.bucket urls.head? taskId with
          | (Except.ok url, _) =>
            Except.ok { videoId := taskId, status := pr.status, createdAt := env.nowAt,
                        downloadUrl := url, model := "veo3_fast",
                        size := "unknown", seconds := "unknown" }
          | (Except.error e, _) => Except.error e
      else if pr.status = "failed" then
        Except.error (JsError.http
          { message := "Kie video generation failed", status := INTERNAL_SERVER_ERROR })
      else
        Except.error (JsError.http
          { message := "Unknown error during Kie video generation", status := INTERNAL_SERVER_ERROR })

/-- Monolithic `VideoService.generateVideoWithKie`: its try-block body
inside the shared catch pattern. -/
def generateVideoWithKieMono (env : KieGenEnv) : Except JsError VideoGenerationResult :=
  catchWrap (generateVideoWithKieMonoBody env) "Failed to generate video with Kie"

/-! ### Poller lemmas

Counting and classification lemmas about the two poll loops, proved by
induction on the remaining time (one unit of fuel per pending iteration,
which suffices because the interval is positive). -/


theorem ceilDiv_zero_left (b : Nat) : ceilDiv 0 b = 0 := by
  unfold ceilDiv
  rcases b with _ | b
  · rfl
  · have h1 : 0 + (b + 1) - 1 = b := by omega
    rw [h1]
    exact Nat.div_eq_of_lt (Nat.lt_succ_self b)

theorem ceilDiv_step {a b : Nat} (hb : 0 < b) (ha : 0 < a) :
    ceilDiv a b = ceilDiv (a - b) b + 1 := by
  unfold ceilDiv
  rcases Nat.lt_or_ge b a with hba | hab
  · have h1 : a + b - 1 = (a - 1) + b := by omega
    have h2 : a - b + b - 1 = (a - b - 1) + b := by omega
    rw [h1, h2, Nat.add_div_right _ hb, Nat.add_div_right _ hb]
    have h3 : a - 1 = (a - b - 1) + b := by omega
    rw [h3, Nat.add_div_right _ hb]
  · have h1 : a + b - 1 = (a - 1) + b := by omega
    have h2 : a - b = 0 := by omega
    rw [h1, h2, Nat.add_div_right _ hb]
    have h3 : (a - 1) / b = 0 := Nat.div_eq_of_lt (by omega)
    have h4 : (0 + b - 1) / b = 0 := Nat.div_eq_of_lt (by omega)
    rw [h3, h4]

def openAiPending (o : OpenAiRetrieve) : Prop :=
  ∃ s p, o = OpenAiRetrieve.ok s p ∧ ¬(s = "completed" ∨ s = "failed")

theorem openAiPollAux_pending_fuel (retrieve : Nat → OpenAiRetrieve) (i : Nat)
    (hpos : 0 < i) (h : ∀ j, openAiPending (retrieve j)) :
    ∀ fuel endTime now k, endTime - now ≤ fuel →
      openAiPollAux retrieve i hpos endTime now k
        = (Except.error (JsError.http openAiTimeoutError), k + ceilDiv (endTime - now) i) := by
  intro fuel
  induction fuel with
  | zero =>
    intro endTime now k hle
    have hnl : ¬ now < endTime := by omega
    rw [openAiPollAux, if_neg hnl]
    have h0 : endTime - now = 0 := by omega
    rw [h0, ceilDiv_zero_left, Nat.add_zero]
  | succ f ih =>
    intro endTime now k hle
    by_cases hlt : now < endTime
    · obtain ⟨s, p, hr, hs⟩ := h k
      rw [openAiPollAux, if_pos hlt, hr]
      simp only [if_neg hs]
      rw [ih endTime (now + i) (k + 1) (by omega)]
      have hceil : ceilDiv (endTime - now) i = ceilDiv (endTime - (now + i)) i + 1 := by
        have := ceilDiv_step (a := endTime - now) hpos (by omega)
        have heq : endTime - now - i = endTime - (now + i) := by omega
        rw [heq] at this
        exact this
      rw [hceil]
      congr 1
      omega
    · rw [openAiPollAux, if_neg hlt]
      have h0 : endTime - now = 0 := by omega
      rw [h0, ceilDiv_zero_left, Nat.add_zero]

def kieNonTerminal (f : KieFetch) : Prop :=
  ∀ r, checkStatus f = Except.ok (some r) →
    r.data.successFlag ≠ 1 ∧ r.data.successFlag ≠ 2 ∧ r.data.successFlag ≠ 3

theorem kiePollAux_nonterminal_fuel (check : Nat → KieFetch) (i : Nat) (hpos : 0 < i)
    (h : ∀ j, kieNonTerminal (check j)) :
    ∀ fuel deadline now k, deadline - now ≤ fuel →
      kiePollAux check i hpos deadline now k
        = (Except.error (JsError.http kieTimeoutError), k + ceilDiv (deadline - now) i) := by
  intro fuel
  induction fuel with
  | zero =>
    intro deadline now k hle
    have hnl : ¬ now < deadline := by omega
    rw [kiePollAux, if_neg hnl]
    have h0 : deadline - now = 0 := by omega
    rw [h0, ceilDiv_zero_left, Nat.add_zero]
  | succ f ih =>
    intro deadline now k hle
    by_cases hlt : now < deadline
    · have harith : k + 1 + ceilDiv (deadline - (now + i)) i = k + ceilDiv (deadline - now) i := by
        have hc := ceilDiv_step (a := deadline - now) hpos (by omega)
        have heq : deadline - now - i = deadline - (now + i) := by omega
        rw [heq] at hc
        omega
      rw [kiePollAux, if_pos hlt]
      rcases hc : checkStatus (check k) with e | o
      · simp only [hc]
        rw [ih deadline (now + i) (k + 1) (by omega), harith]
      · rcases o with _ | r
        · simp only [hc]
          rw [ih deadline (now + i) (k + 1) (by omega), harith]
        · obtain ⟨h1, h2, h3⟩ := h k r hc
          simp only [hc]
          by_cases hf0 : r.data.successFlag = 0
          · simp only [if_pos hf0]
            rw [ih deadline (now + i) (k + 1) (by omega), harith]
          · have h23 : ¬(r.data.successFlag = 2 ∨ r.data.successFlag = 3) := by
              intro hh
              rcases hh with hh | hh
              · exact h2 hh
              · exact h3 hh
            simp only [if_neg hf0, if_neg h1, if_neg h23]
            rw [ih deadline (now + i) (k + 1) (by omega), harith]
    · rw [kiePollAux, if_neg hlt]
      have h0 : deadline - now = 0 := by omega
      rw [h0, ceilDiv_zero_left, Nat.add_zero]

theorem openAiPollAux_cases (retrieve : Nat → OpenAiRetrieve) (i : Nat) (hpos : 0 < i) :
    ∀ fuel endTime now k, endTime - now ≤ fuel →
      (∀ e n, openAiPollAux retrieve i hpos endTime now k = (Except.error e, n) →
        e = JsError.http openAiTimeoutError ∨ ∃ m, e = JsError.other m) ∧
      (∀ pr n, openAiPollAux retrieve i hpos endTime now k = (Except.ok pr, n) →
        pr.status = "completed" ∨ pr.status = "failed") := by
  intro fuel
  induction fuel with
  | zero =>
    intro endTime now k hle
    have hnl : ¬ now < endTime := by omega
    rw [openAiPollAux, if_neg hnl]
    constructor
    · intro e n heq
      injection heq with h1 h2
      injection h1 with h3
      exact Or.inl h3.symm
    · intro pr n heq
      injection heq with h1 h2
      exact absurd h1 (by simp)
  | succ f ih =>
    intro endTime now k hle
    by_cases hlt : now < endTime
    · rw [openAiPollAux, if_pos hlt]
      cases hr : retrieve k with
      | ok s p =>
        simp only [hr]
        by_cases hterm : s = "completed" ∨ s = "failed"
        · simp only [if_pos hterm]
          constructor
          · intro e n heq
            injection heq with h1 h2
            exact absurd h1 (by simp)
          · intro pr n heq
            injection heq with h1 h2
            injection h1 with h3
            rw [← h3]
            exact hterm
        · simp only [if_neg hterm]
          exact ih endTime (now + i) (k + 1) (by omega)
      | err msg =>
        simp only [hr]
        constructor
        · intro e n heq
          injection heq with h1 h2
          injection h1 with h3
          exact Or.inr ⟨msg, h3.symm⟩
        · intro pr n heq
          injection heq with h1 h2
          exact absurd h1 (by simp)
    · rw [openAiPollAux, if_neg hlt]
      constructor
      · intro e n heq
        injection heq with h1 h2
        injection h1 with h3
        exact Or.inl h3.symm
      · intro pr n heq
        injection heq with h1 h2
        exact absurd h1 (by simp)

theorem kiePollAux_error (check : Nat → KieFetch) (i : Nat) (hpos : 0 < i) :
    ∀ fuel deadline now k, deadline - now ≤ fuel →
      ∀ e n, kiePollAux check i hpos deadline now k = (Except.error e, n) →
        e = JsError.http kieTimeoutError := by
  intro fuel
  induction fuel with
  | zero =>
    intro deadline now k hle e n heq
    have hnl : ¬ now < deadline := by omega
    rw [kiePollAux, if_neg hnl] at heq
    injection heq with h1 h2
    injection h1 with h3
    exact h3.symm
  | succ f ih =>
    intro deadline now k hle e n heq
    by_cases hlt : now < deadline
    · rw [kiePollAux, if_pos hlt] at heq
      cases hc : checkStatus (check k) with
      | error e2 =>
        simp only [hc] at heq
        exact ih deadline (now + i) (k + 1) (by omega) e n heq
      | ok o =>
        cases o with
        | none =>
          simp only [hc] at heq
          exact ih deadline (now + i) (k + 1) (by omega) e n heq
        | some r =>
          simp only [hc] at heq
          by_cases hf0 : r.data.successFlag = 0
          · rw [if_pos hf0] at heq
            exact ih deadline (now + i) (k + 1) (by omega) e n heq
          · rw [if_neg hf0] at heq
            by_cases hf1 : r.data.successFlag = 1
            · rw [if_pos hf1] at heq
              injection heq with h1 h2
              exact absurd h1 (by simp)
            · rw [if_neg hf1] at heq
              by_cases hf23 : r.data.successFlag = 2 ∨ r.data.successFlag = 3
              · rw [if_pos hf23] at heq
                injection heq with h1 h2
                exact absurd h1 (by simp)
              · rw [if_neg hf23] at heq
                exact ih deadline (now + i) (k + 1) (by omega) e n heq
    · rw [kiePollAux, if_neg hlt] at heq
      injection heq with h1 h2
      injection h1 with h3
      exact h3.symm

theorem pollForVideoCompletion_pending (retrieve : Nat → OpenAiRetrieve)
    (maxWaitTime i : Nat) (hpos : 0 < i) (h : ∀ j, openAiPending (retrieve j)) :
    pollForVideoCompletion retrieve maxWaitTime i hpos
      = (Except.error (JsError.http openAiTimeoutError), ceilDiv maxWaitTime i) := by
  unfold pollForVideoCompletion
  rw [openAiPollAux_pending_fuel retrieve i hpos h maxWaitTime maxWaitTime 0 0 (by omega)]
  rw [Nat.sub_zero, Nat.zero_add]

theorem kiePollForCompletion_nonterminal (check : Nat → KieFetch)
    (maxWaitTime i : Nat) (hpos : 0 < i) (h : ∀ j, kieNonTerminal (check j)) :
    kiePollForCompletion check maxWaitTime i hpos
      = (Except.error (JsError.http kieTimeoutError), ceilDiv maxWaitTime i) := by
  unfold kiePollForCompletion
  rw [kiePollAux_nonterminal_fuel check i hpos h maxWaitTime maxWaitTime 0 0 (by omega)]
  rw [Nat.sub_zero, Nat.zero_add]

theorem openAiPoll_fst_error (retrieve : Nat → OpenAiRetrieve) (m i : Nat)
    (hpos : 0 < i) (e : JsError)
    (h : (pollForVideoCompletion retrieve m i hpos).1 = Except.error e) :
    e = JsError.http openAiTimeoutError ∨ ∃ msg, e = JsError.other msg := by
  have hcases := openAiPollAux_cases retrieve i hpos m m 0 0 (by omega)
  have hpair : openAiPollAux retrieve i hpos m 0 0
      = (Except.error e, (openAiPollAux retrieve i hpos m 0 0).2) := Prod.ext h rfl
  exact hcases.1 e _ hpair

theorem openAiPoll_fst_ok (retrieve : Nat → OpenAiRetrieve) (m i : Nat)
    (hpos : 0 < i) (pr : OpenAiPollResult)
    (h : (pollForVideoCompletion retrieve m i hpos).1 = Except.ok pr) :
    pr.status = "completed" ∨ pr.status = "failed" := by
  have hcases := openAiPollAux_cases retrieve i hpos m m 0 0 (by omega)
  have hpair : openAiPollAux retrieve i hpos m 0 0
      = (Except.ok pr, (openAiPollAux retrieve i hpos m 0 0).2) := Prod.ext h rfl
  exact hcases.2 pr _ hpair

theorem kiePoll_fst_error (check : Nat → KieFetch) (m i : Nat)
    (hpos : 0 < i) (e : JsError)
    (h : (kiePollForCompletion check m i hpos).1 = Except.error e) :
    e = JsError.http kieTimeoutError := by
  have hpair : kiePollAux check i hpos m 0 0
      = (Except.error e, (kiePollAux check i hpos m 0 0).2) := Prod.ext h rfl
  exact kiePollAux_error check i hpos m m 0 0 (by omega) e _ hpair

theorem uploadImageStep_error (image : Option String) (store : StoreOutcome)
    (bucket : String) (ts : Nat) (e : JsError)
    (h : uploadImageStep image store bucket ts = Except.error e) :
    e = JsError.http { message := "Failed to upload image", status := INTERNAL_SERVER_ERROR } := by
  unfold uploadImageStep uploadImage at h
  cases image with
  | none => cases h
  | some name =>
    cases store with
    | ok => simp at h
    | err m =>
      simp at h
      exact h.symm

theorem kieCreateVideo_error (submit : KieSubmitFetch) (e : JsError)
    (h : kieCreateVideo submit = Except.error e) :
    (∃ m, e = JsError.other m) ∨
      ∃ he, e = JsError.http he ∧ he.status = INTERNAL_SERVER_ERROR := by
  cases submit with
  | netErr msg =>
    simp only [kieCreateVideo] at h
    injection h with h1
    exact Or.inl ⟨msg, h1.symm⟩
  | resp respOk statusText body =>
    cases body with
    | parseErr msg =>
      simp only [kieCreateVideo] at h
      by_cases hok : respOk = false
      · rw [if_pos hok] at h
        injection h with h1
        exact Or.inr ⟨_, h1.symm, rfl⟩
      · rw [if_neg hok] at h
        injection h with h1
        exact Or.inl ⟨msg, h1.symm⟩
    | parsed code msg taskId =>
      simp only [kieCreateVideo] at h
      by_cases hok : respOk = false
      · rw [if_pos hok] at h
        injection h with h1
        exact Or.inr ⟨_, h1.symm, rfl⟩
      · rw [if_neg hok] at h
        by_cases hc : code = 200
        · rw [if_pos hc] at h
          cases h
        · rw [if_neg hc] at h
          injection h with h1
          exact Or.inr ⟨_, h1.symm, rfl⟩

theorem catchWrap_error {α : Type} (body : Except JsError α) (msg : String) (e : JsError)
    (h : catchWrap body msg = Except.error e) :
    ∃ he, e = JsError.http he ∧
      (body = Except.error (JsError.http he) ∨
        (he = { message := msg, status := INTERNAL_SERVER_ERROR } ∧
          ∃ m, body = Except.error (JsError.other m))) := by
  unfold catchWrap at h
  cases body with
  | ok r => cases h
  | error e2 =>
    cases e2 with
    | http he =>
      injection h with h1
      exact ⟨he, h1.symm, Or.inl rfl⟩
    | other m =>
      injection h with h1
      exact ⟨_, h1.symm, Or.inr ⟨rfl, m, rfl⟩⟩

theorem saveVideo_fst_error (store : StoreOutcome) (bucket : String) (size : Nat)
    (fileName : String) (e : JsError)
    (h : (saveVideo store bucket size fileName).1 = Except.error e) :
    e = JsError.http payloadTooLargeError ∨
      e = JsError.http { message := "Failed to upload video to storage", status := INTERNAL_SERVER_ERROR } := by
  by_cases hsz : size > MAX_VIDEO_SIZE
  · simp only [saveVideo, if_pos hsz] at h
    injection h with h1
    exact Or.inl h1.symm
  · cases store with
    | ok =>
      simp only [saveVideo, if_neg hsz] at h
      cases h
    | err m =>
      simp only [saveVideo, if_neg hsz] at h
      injection h with h1
      exact Or.inr h1.symm

theorem streamVideoToBucket_fst_error (download : DownloadOutcome) (store : StoreOutcome)
    (bucket videoId : String) (e : JsError)
    (h : (streamVideoToBucket download store bucket videoId).1 = Except.error e) :
    e = JsError.http { message := "Failed to upload video to storage", status := INTERNAL_SERVER_ERROR } := by
  cases download with
  | err m =>
    simp only [streamVideoToBucket] at h
    injection h with h1
    exact h1.symm
  | ok size =>
    rcases hs : saveVideo store bucket size (openAiVideoKey videoId) with ⟨res, calls⟩
    cases res with
    | ok url =>
      simp only [streamVideoToBucket, hs] at h
      cases h
    | error e2 =>
      simp only [streamVideoToBucket, hs] at h
      injection h with h1
      exact h1.symm

theorem downloadToBucket_fst_error (fetchVideo : String → KieDownloadFetch)
    (store : StoreOutcome) (bucket : String) (videoUrl : Option String)
    (taskId : String) (e : JsError)
    (h : (downloadToBucket fetchVideo store bucket videoUrl taskId).1 = Except.error e) :
    e = JsError.http { message := "Failed to download and upload video from Kie", status := INTERNAL_SERVER_ERROR } := by
  cases videoUrl with
  | none =>
    simp only [downloadToBucket] at h
    injection h with h1
    exact h1.symm
  | some url =>
    by_cases hemp : url = ""
    · simp only [downloadToBucket, if_pos hemp] at h
      injection h with h1
      exact h1.symm
    · cases hf : fetchVideo url with
      | netErr m =>
        simp only [downloadToBucket, if_neg hemp, hf] at h
        injection h with h1
        exact h1.symm
      | resp respOk statusText body =>
        by_cases hok : respOk = false
        · simp only [downloadToBucket, if_neg hemp, hf, if_pos hok] at h
          injection h with h1
          exact h1.symm
        · cases body with
          | readErr m =>
            simp only [downloadToBucket, if_neg hemp, hf, if_neg hok] at h
            injection h with h1
            exact h1.symm
          | bytes size =>
            rcases hs : saveVideo store bucket size (kieVideoKey taskId) with ⟨res, calls⟩
            cases res with
            | ok url2 =>
              simp only [downloadToBucket, if_neg hemp, hf, if_neg hok, hs] at h
              cases h
            | error e2 =>
              simp only [downloadToBucket, if_neg hemp, hf, if_neg hok, hs] at h
              injection h with h1
              exact h1.symm

theorem generateVideoBody_error (env : OpenAiGenEnv) (e : JsError)
    (h : generateVideoBody env = Except.error e) :
    (∃ m, e = JsError.other m) ∨
      (∃ he, e = JsError.http he ∧ he.status = INTERNAL_SERVER_ERROR) ∨
      e = JsError.http openAiTimeoutError := by
  cases hu : uploadImageStep env.image env.imageStore env.bucket env.timestamp with
  | error e1 =>
    simp only [generateVideoBody, hu] at h
    injection h with h1
    rw [← h1]
    rw [uploadImageStep_error _ _ _ _ _ hu]
    exact Or.inr (Or.inl ⟨_, rfl, rfl⟩)
  | ok u =>
    cases hc : env.create with
    | err msg =>
      simp only [generateVideoBody, hu, hc] at h
      injection h with h1
      exact Or.inl ⟨msg, h1.symm⟩
    | ok id created_at model size seconds =>
      cases hp : (pollForVideoCompletion env.retrieve (5 * 60 * 1000) 5000 (by decide)).1 with
      | error e2 =>
        simp only [generateVideoBody, hu, hc, hp] at h
        injection h with h1
        rw [← h1]
        rcases openAiPoll_fst_error _ _ _ _ _ hp with htime | ⟨m, hm⟩
        · rw [htime]
          exact Or.inr (Or.inr rfl)
        · rw [hm]
          exact Or.inl ⟨m, rfl⟩
      | ok pr =>
        by_cases hcomp : pr.status = "completed"
        · rcases hs : streamVideoToBucket env.download env.videoStore env.bucket id with ⟨res, calls⟩
          cases res with
          | ok url =>
            simp only [generateVideoBody, hu, hc, hp, if_pos hcomp, hs] at h
            cases h
          | error e3 =>
            simp only [generateVideoBody, hu, hc, hp, if_pos hcomp, hs] at h
            injection h with h1
            rw [← h1]
            have h3 : (streamVideoToBucket env.download env.videoStore env.bucket id).1
                = Except.error e3 := by rw [hs]
            rw [streamVideoToBucket_fst_error _ _ _ _ _ h3]
            exact Or.inr (Or.inl ⟨_, rfl, rfl⟩)
        · by_cases hfail : pr.status = "failed"
          · simp only [generateVideoBody, hu, hc, hp, if_neg hcomp, if_pos hfail] at h
            injection h with h1
            exact Or.inr (Or.inl ⟨_, h1.symm, rfl⟩)
          · simp only [generateVideoBody, hu, hc, hp, if_neg hcomp, if_neg hfail] at h
            injection h with h1
            exact Or.inr (Or.inl ⟨_, h1.symm, rfl⟩)

theorem createVideoWithKieMono_error (env : KieGenEnv) (e : JsError)
    (h : createVideoWithKieMono env = Except.error e) :
    ∃ he, e = JsError.http he ∧ he.status = INTERNAL_SERVER_ERROR := by
  obtain ⟨he, hee, hbody | ⟨hmsg, m, hbody⟩⟩ := catchWrap_error _ _ _ h
  · cases hu : uploadImageStep env.image env.imageStore env.bucket env.timestamp with
    | error e1 =>
      simp only [hu] at hbody
      injection hbody with h1
      have h2 := uploadImageStep_error _ _ _ _ _ hu
      rw [h2] at h1
      injection h1 with h3
      exact ⟨he, hee, by rw [← h3]⟩
    | ok u =>
      simp only [hu] at hbody
      rcases kieCreateVideo_error _ _ hbody with ⟨m2, hm⟩ | ⟨he2, hh, hst⟩
      · exact absurd hm (by simp)
      · injection hh with h3
        exact ⟨he, hee, by rw [h3]; exact hst⟩
  · exact ⟨he, hee, by rw [hmsg]⟩

theorem generateVideoWithKieBody_error (env : KieGenEnv) (e : JsError)
    (h : generateVideoWithKieBody env = Except.error e) :
    (∃ m, e = JsError.other m) ∨
      (∃ he, e = JsError.http he ∧ he.status = INTERNAL_SERVER_ERROR) ∨
      e = JsError.http kieTimeoutError := by
  cases hu : uploadImageStep env.image env.imageStore env.bucket env.timestamp with
  | error e1 =>
    simp only [generateVideoWithKieBody, hu] at h
    injection h with h1
    rw [← h1, uploadImageStep_error _ _ _ _ _ hu]
    exact Or.inr (Or.inl ⟨_, rfl, rfl⟩)
  | ok u =>
    cases hc : kieCreateVideo env.submit with
    | error e2 =>
      simp only [generateVideoWithKieBody, hu, hc] at h
      injection h with h1
      rw [← h1]
      rcases kieCreateVideo_error _ _ hc with ⟨m, hm⟩ | ⟨he2, hh, hst⟩
      · exact Or.inl ⟨m, hm⟩
      · exact Or.inr (Or.inl ⟨he2, hh, hst⟩)
    | ok taskId =>
      cases hp : (kiePollForCompletion env.check (10 * 60 * 1000) 10000 (by decide)).1 with
      | error e3 =>
        simp only [generateVideoWithKieBody, hu, hc, hp] at h
        injection h with h1
        rw [← h1, kiePoll_fst_error _ _ _ _ _ hp]
        exact Or.inr (Or.inr rfl)
      | ok pr =>
        by_cases hcomp : pr.status = "completed"
        · cases hh : (pr.videoUrls.getD []).head? with
          | none =>
            simp only [generateVideoWithKieBody, hu, hc, hp, if_pos hcomp, hh] at h
            injection h with h1
            exact Or.inr (Or.inl ⟨_, h1.symm, rfl⟩)
          | some u2 =>
            by_cases hemp : u2 = ""
            · simp only [generateVideoWithKieBody, hu, hc, hp, if_pos hcomp, hh, if_pos hemp] at h
              injection h with h1
              exact Or.inr (Or.inl ⟨_, h1.symm, rfl⟩)
            · rcases hd : downloadToBucket env.fetchVideo env.videoStore env.bucket (some u2) taskId
                with ⟨res, calls⟩
              cases res with
              | ok url =>
                simp only [generateVideoWithKieBody, hu, hc, hp, if_pos hcomp, hh, if_neg hemp, hd] at h
                cases h
              | error e4 =>
                simp only [generateVideoWithKieBody, hu, hc, hp, if_pos hcomp, hh, if_neg hemp, hd] at h
                injection h with h1
                have h4 : (downloadToBucket env.fetchVideo env.videoStore env.bucket (some u2) taskId).1
                    = Except.error e4 := by rw [hd]
                rw [← h1, downloadToBucket_fst_error _ _ _ _ _ _ h4]
                exact Or.inr (Or.inl ⟨_, rfl, rfl⟩)
        · by_cases hfail : pr.status = "failed"
          · simp only [generateVideoWithKieBody, hu, hc, hp, if_neg hcomp, if_pos hfail] at h
            injection h with h1
            exact Or.inr (Or.inl ⟨_, h1.symm, rfl⟩)
          · simp only [generateVideoWithKieBody, hu, hc, hp, if_neg hcomp, if_neg hfail] at h
            injection h with h1
            exact Or.inr (Or.inl ⟨_, h1.symm, rfl⟩)

theorem generateVideoWithKieMonoBody_error (env : KieGenEnv) (e : JsError)
    (h : generateVideoWithKieMonoBody env = Except.error e) :
    (∃ m, e = JsError.other m) ∨
      (∃ he, e = JsError.http he ∧ he.status = INTERNAL_SERVER_ERROR) ∨
      e = JsError.http kieTimeoutError := by
  cases hc : createVideoWithKieMono env with
  | error e2 =>
    simp only [generateVideoWithKieMonoBody, hc] at h
    injection h with h1
    rw [← h1]
    obtain ⟨he2, hh, hst⟩ := createVideoWithKieMono_error _ _ hc
    exact Or.inr (Or.inl ⟨he2, hh, hst⟩)
  | ok taskId =>
    cases hp : (kiePollForCompletion env.check (10 * 60 * 1000) 10000 (by decide)).1 with
    | error e3 =>
      simp only [generateVideoWithKieMonoBody, hc, hp] at h
      injection h with h1
      rw [← h1, kiePoll_fst_error _ _ _ _ _ hp]
      exact Or.inr (Or.inr rfl)
    | ok pr =>
      by_cases hcomp : pr.status = "completed"
      · cases hv : pr.videoUrls with
        | none =>
          simp only [generateVideoWithKieMonoBody, hc, hp, if_pos hcomp, hv] at h
          injection h with h1
          exact Or.inl ⟨_, h1.symm⟩
        | some urls =>
          rcases hd : downloadToBucket env.fetchVideo env.videoStore env.bucket urls.head? taskId
            with ⟨res, calls⟩
          cases res with
          | ok url =>
            simp only [generateVideoWithKieMonoBody, hc, hp, if_pos hcomp, hv, hd] at h
            cases h
          | error e4 =>
            simp only [generateVideoWithKieMonoBody, hc, hp, if_pos hcomp, hv, hd] at h
            injection h with h1
            have h4 : (downloadToBucket env.fetchVideo env.videoStore env.bucket urls.head? taskId).1
                = Except.error e4 := by rw [hd]
            rw [← h1, downloadToBucket_fst_error _ _ _ _ _ _ h4]
            exact Or.inr (Or.inl ⟨_, rfl, rfl⟩)
      · by_cases hfail : pr.status = "failed"
        · simp only [generateVideoWithKieMonoBody, hc, hp, if_neg hcomp, if_pos hfail] at h
          injection h with h1
          exact Or.inr (Or.inl ⟨_, h1.symm, rfl⟩)
        · simp only [generateVideoWithKieMonoBody, hc, hp, if_neg hcomp, if_neg hfail] at h
          injection h with h1
          exact Or.inr (Or.inl ⟨_, h1.symm, rfl⟩)

theorem generateVideo_error_class (env : OpenAiGenEnv) (e : JsError)
    (h : generateVideo env = Except.error e) :
    ∃ he, e = JsError.http he ∧
      (he.status = REQUEST_TIMEOUT ∨ he.status = INTERNAL_SERVER_ERROR) ∧
      (he.status = REQUEST_TIMEOUT → he = openAiTimeoutError) := by
  obtain ⟨he, hee, hcase⟩ := catchWrap_error _ _ _ h
  rcases hcase with hbody | ⟨hgen, m, hbody⟩
  · rcases generateVideoBody_error env _ hbody with ⟨m, hm⟩ | ⟨he2, hh, hst⟩ | htime
    · exact absurd hm (by simp)
    · injection hh with h3
      refine ⟨he, hee, Or.inr (by rw [h3]; exact hst), fun h408 => ?_⟩
      rw [h3] at h408
      rw [hst] at h408
      exact absurd h408 (by decide)
    · injection htime with h3
      exact ⟨he, hee, Or.inl (by rw [h3]; rfl), fun _ => by rw [h3]⟩
  · refine ⟨he, hee, Or.inr (by rw [hgen]), fun h408 => ?_⟩
    rw [hgen] at h408
    exact absurd h408 (by decide)

theorem generateVideoWithKie_error_class (env : KieGenEnv) (e : JsError)
    (h : generateVideoWithKie env = Except.error e) :
    ∃ he, e = JsError.http he ∧
      (he.status = REQUEST_TIMEOUT ∨ he.status = INTERNAL_SERVER_ERROR) ∧
      (he.status = REQUEST_TIMEOUT → he = kieTimeoutError) := by
  obtain ⟨he, hee, hcase⟩ := catchWrap_error _ _ _ h
  rcases hcase with hbody | ⟨hgen, m, hbody⟩
  · rcases generateVideoWithKieBody_error env _ hbody with ⟨m, hm⟩ | ⟨he2, hh, hst⟩ | htime
    · exact absurd hm (by simp)
    · injection hh with h3
      refine ⟨he, hee, Or.inr (by rw [h3]; exact hst), fun h408 => ?_⟩
      rw [h3] at h408
      rw [hst] at h408
      exact absurd h408 (by decide)
    · injection htime with h3
      exact ⟨he, hee, Or.inl (by rw [h3]; rfl), fun _ => by rw [h3]⟩
  · refine ⟨he, hee, Or.inr (by rw [hgen]), fun h408 => ?_⟩
    rw [hgen] at h408
    exact absurd h408 (by decide)

theorem generateVideoWithKieMono_error_class (env : KieGenEnv) (e : JsError)
    (h : generateVideoWithKieMono env = Except.error e) :
    ∃ he, e = JsError.http he ∧
      (he.status = REQUEST_TIMEOUT ∨ he.status = INTERNAL_SERVER_ERROR) ∧
      (he.status = REQUEST_TIMEOUT → he = kieTimeoutError) := by
  obtain ⟨he, hee, hcase⟩ := catchWrap_error _ _ _ h
  rcases hcase with hbody | ⟨hgen, m, hbody⟩
  · rcases generateVideoWithKieMonoBody_error env _ hbody with ⟨m, hm⟩ | ⟨he2, hh, hst⟩ | htime
    · exact absurd hm (by simp)
    · injection hh with h3
      refine ⟨he, hee, Or.inr (by rw [h3]; exact hst), fun h408 => ?_⟩
      rw [h3] at h408
      rw [hst] at h408
      exact absurd h408 (by decide)
    · injection htime with h3
      exact ⟨he, hee, Or.inl (by rw [h3]; rfl), fun _ => by rw [h3]⟩
  · refine ⟨he, hee, Or.inr (by rw [hgen]), fun h408 => ?_⟩
    rw [hgen] at h408
    exact absurd h408 (by decide)

theorem generateVideoBody_unknown (env : OpenAiGenEnv)
    (h : generateVideoBody env
      = Except.error (JsError.http
          { message := "Unknown error during video generation", status := INTERNAL_SERVER_ERROR })) :
    False := by
  cases hu : uploadImageStep env.image env.imageStore env.bucket env.timestamp with
  | error e1 =>
    simp only [generateVideoBody, hu] at h
    injection h with h1
    rw [uploadImageStep_error _ _ _ _ _ hu] at h1
    injection h1 with h2
    injection h2 with h3
    exact absurd h3 (by decide)
  | ok u =>
    cases hc : env.create with
    | err msg =>
      simp only [generateVideoBody, hu, hc] at h
      injection h with h1
      exact absurd h1 (by simp)
    | ok id created_at model size seconds =>
      cases hp : (pollForVideoCompletion env.retrieve (5 * 60 * 1000) 5000 (by decide)).1 with
      | error e2 =>
        simp only [generateVideoBody, hu, hc, hp] at h
        injection h with h1
        rcases openAiPoll_fst_error _ _ _ _ _ hp with htime | ⟨m, hm⟩
        · rw [htime] at h1
          injection h1 with h2
          injection h2 with h3 h4
          exact absurd h4 (by decide)
        · rw [hm] at h1
          exact absurd h1 (by simp)
      | ok pr =>
        by_cases hcomp : pr.status = "completed"
        · rcases hs : streamVideoToBucket env.download env.videoStore env.bucket id with ⟨res, calls⟩
          cases res with
          | ok url =>
            simp only [generateVideoBody, hu, hc, hp, if_pos hcomp, hs] at h
            cases h
          | error e3 =>
            simp only [generateVideoBody, hu, hc, hp, if_pos hcomp, hs] at h
            injection h with h1
            have h3 : (streamVideoToBucket env.download env.videoStore env.bucket id).1
                = Except.error e3 := by rw [hs]
            rw [streamVideoToBucket_fst_error _ _ _ _ _ h3] at h1
            injection h1 with h2
            injection h2 with h4
            exact absurd h4 (by decide)
        · by_cases hfail : pr.status = "failed"
          · simp only [generateVideoBody, hu, hc, hp, if_neg hcomp, if_pos hfail] at h
            injection h with h1
            injection h1 with h2
            injection h2 with h4
            exact absurd h4 (by decide)
          · rcases openAiPoll_fst_ok _ _ _ _ _ hp with hx | hx
            · exact hcomp hx
            · exact hfail hx

theorem publicUrl_ne_empty (bucket fileName : String) : publicUrl bucket fileName ≠ "" := by
  intro h
  have hl := congrArg String.length h
  simp only [publicUrl, String.length_append] at hl
  have h1 : String.length "https://storage.googleapis.com/" = 31 := by decide
  have h2 : String.length "" = 0 := by decide
  omega

theorem catchWrap_ok {α : Type} (body : Except JsError α) (msg : String) (r : α)
    (h : catchWrap body msg = Except.ok r) : body = Except.ok r := by
  unfold catchWrap at h
  cases body with
  | ok r2 =>
    injection h with h1
    rw [h1]
  | error e2 =>
    cases e2 with
    | http he => cases h
    | other m => cases h

theorem saveVideo_fst_ok (store : StoreOutcome) (bucket : String) (size : Nat)
    (fileName : String) (url : String)
    (h : (saveVideo store bucket size fileName).1 = Except.ok url) :
    url = publicUrl bucket fileName ∧ size ≤ MAX_VIDEO_SIZE ∧ store = StoreOutcome.ok := by
  by_cases hsz : size > MAX_VIDEO_SIZE
  · simp only [saveVideo, if_pos hsz] at h
    cases h
  · cases store with
    | ok =>
      simp only [saveVideo, if_neg hsz] at h
      injection h with h1
      exact ⟨h1.symm, by omega, rfl⟩
    | err m =>
      simp only [saveVideo, if_neg hsz] at h
      cases h

theorem streamVideoToBucket_fst_ok (download : DownloadOutcome) (store : StoreOutcome)
    (bucket videoId : String) (url : String)
    (h : (streamVideoToBucket download store bucket videoId).1 = Except.ok url) :
    url = publicUrl bucket (openAiVideoKey videoId) := by
  cases download with
  | err m =>
    simp only [streamVideoToBucket] at h
    cases h
  | ok size =>
    rcases hs : saveVideo store bucket size (openAiVideoKey videoId) with ⟨res, calls⟩
    cases res with
    | ok url2 =>
      simp only [streamVideoToBucket, hs] at h
      injection h with h1
      have h2 : (saveVideo store bucket size (openAiVideoKey videoId)).1 = Except.ok url2 := by
        rw [hs]
      rw [← h1]
      exact (saveVideo_fst_ok _ _ _ _ _ h2).1
    | error e2 =>
      simp only [streamVideoToBucket, hs] at h
      cases h

theorem downloadToBucket_fst_ok (fetchVideo : String → KieDownloadFetch)
    (store : StoreOutcome) (bucket : String) (videoUrl : Option String)
    (taskId : String) (url : String)
    (h : (downloadToBucket fetchVideo store bucket videoUrl taskId).1 = Except.ok url) :
    url = publicUrl bucket (kieVideoKey taskId) ∧ ∃ u, videoUrl = some u ∧ u ≠ "" := by
  cases videoUrl with
  | none =>
    simp only [downloadToBucket] at h
    cases h
  | some u =>
    by_cases hemp : u = ""
    · simp only [downloadToBucket, if_pos hemp] at h
      cases h
    · cases hf : fetchVideo u with
      | netErr m =>
        simp only [downloadToBucket, if_neg hemp, hf] at h
        cases h
      | resp respOk statusText body =>
        by_cases hok : respOk = false
        · simp only [downloadToBucket, if_neg hemp, hf, if_pos hok] at h
          cases h
        · cases body with
          | readErr m =>
            simp only [downloadToBucket, if_neg hemp, hf, if_neg hok] at h
            cases h
          | bytes size =>
            rcases hs : saveVideo store bucket size (kieVideoKey taskId) with ⟨res, calls⟩
            cases res with
            | ok url2 =>
              simp only [downloadToBucket, if_neg hemp, hf, if_neg hok, hs] at h
              injection h with h1
              have h2 : (saveVideo store bucket size (kieVideoKey taskId)).1 = Except.ok url2 := by
                rw [hs]
              rw [← h1]
              exact ⟨(saveVideo_fst_ok _ _ _ _ _ h2).1, u, rfl, hemp⟩
            | error e2 =>
              simp only [downloadToBucket, if_neg hemp, hf, if_neg hok, hs] at h
              cases h

theorem generateVideoBody_ok (env : OpenAiGenEnv) (r : VideoGenerationResult)
    (h : generateVideoBody env = Except.ok r) :
    r.status = "completed" ∧ r.downloadUrl ≠ "" ∧
      ∃ pr, (pollForVideoCompletion env.retrieve (5 * 60 * 1000) 5000 (by decide)).1
          = Except.ok pr ∧ pr.status = "completed" := by
  cases hu : uploadImageStep env.image env.imageStore env.bucket env.timestamp with
  | error e1 =>
    simp only [generateVideoBody, hu] at h
    cases h
  | ok u =>
    cases hc : env.create with
    | err msg =>
      simp only [generateVideoBody, hu, hc] at h
      cases h
    | ok id created_at model size seconds =>
      cases hp : (pollForVideoCompletion env.retrieve (5 * 60 * 1000) 5000 (by decide)).1 with
      | error e2 =>
        simp only [generateVideoBody, hu, hc, hp] at h
        cases h
      | ok pr =>
        by_cases hcomp : pr.status = "completed"
        · rcases hs : streamVideoToBucket env.download env.videoStore env.bucket id with ⟨res, calls⟩
          cases res with
          | ok url =>
            simp only [generateVideoBody, hu, hc, hp, if_pos hcomp, hs] at h
            injection h with h1
            have h2 : (streamVideoToBucket env.download env.videoStore env.bucket id).1
                = Except.ok url := by rw [hs]
            have h3 := streamVideoToBucket_fst_ok _ _ _ _ _ h2
            rw [← h1]
            refine ⟨hcomp, ?_, pr, rfl, hcomp⟩
            show url ≠ ""
            rw [h3]
            exact publicUrl_ne_empty _ _
          | error e3 =>
            simp only [generateVideoBody, hu, hc, hp, if_pos hcomp, hs] at h
            cases h
        · by_cases hfail : pr.status = "failed"
          · simp only [generateVideoBody, hu, hc, hp, if_neg hcomp, if_pos hfail] at h
            cases h
          · simp only [generateVideoBody, hu, hc, hp, if_neg hcomp, if_neg hfail] at h
            cases h

theorem generateVideoWithKieBody_ok (env : KieGenEnv) (r : VideoGenerationResult)
    (h : generateVideoWithKieBody env = Except.ok r) :
    r.status = "completed" ∧ r.downloadUrl ≠ "" ∧ r.model = "veo3_fast" ∧
      r.size = "unknown" ∧ r.seconds = "unknown" ∧
      ∃ pr l u2, (kiePollForCompletion env.check (10 * 60 * 1000) 10000 (by decide)).1
          = Except.ok pr ∧ pr.status = "completed" ∧ pr.videoUrls = some l ∧
          l.head? = some u2 ∧ u2 ≠ "" := by
  cases hu : uploadImageStep env.image env.imageStore env.bucket env.timestamp with
  | error e1 =>
    simp only [generateVideoWithKieBody, hu] at h
    cases h
  | ok u =>
    cases hc : kieCreateVideo env.submit with
    | error e2 =>
      simp only [generateVideoWithKieBody, hu, hc] at h
      cases h
    | ok taskId =>
      cases hp : (kiePollForCompletion env.check (10 * 60 * 1000) 10000 (by decide)).1 with
      | error e3 =>
        simp only [generateVideoWithKieBody, hu, hc, hp] at h
        cases h
      | ok pr =>
        by_cases hcomp : pr.status = "completed"
        · cases hh : (pr.videoUrls.getD []).head? with
          | none =>
            simp only [generateVideoWithKieBody, hu, hc, hp, if_pos hcomp, hh] at h
            cases h
          | some u2 =>
            by_cases hemp : u2 = ""
            · simp only [generateVideoWithKieBody, hu, hc, hp, if_pos hcomp, hh, if_pos hemp] at h
              cases h
            · rcases hd : downloadToBucket env.fetchVideo env.videoStore env.bucket (some u2) taskId
                with ⟨res, calls⟩
              cases res with
              | ok url =>
                simp only [generateVideoWithKieBody, hu, hc, hp, if_pos hcomp, hh, if_neg hemp, hd] at h
                injection h with h1
                have h2 : (downloadToBucket env.fetchVideo env.videoStore env.bucket (some u2) taskId).1
                    = Except.ok url := by rw [hd]
                obtain ⟨hurl, _⟩ := downloadToBucket_fst_ok _ _ _ _ _ _ h2
                cases hv : pr.videoUrls with
                | none =>
                  rw [hv] at hh
                  simp at hh
                | some l =>
                  rw [hv] at hh
                  simp only [Option.getD_some] at hh
                  rw [← h1]
                  refine ⟨hcomp, ?_, rfl, rfl, rfl, pr, l, u2, rfl, hcomp, hv, hh, hemp⟩
                  show url ≠ ""
                  rw [hurl]
                  exact publicUrl_ne_empty _ _
              | error e4 =>
                simp only [generateVideoWithKieBody, hu, hc, hp, if_pos hcomp, hh, if_neg hemp, hd] at h
                cases h
        · by_cases hfail : pr.status = "failed"
          · simp only [generateVideoWithKieBody, hu, hc, hp, if_neg hcomp, if_pos hfail] at h
            cases h
          · simp only [generateVideoWithKieBody, hu, hc, hp, if_neg hcomp, if_neg hfail] at h
            cases h

theorem generateVideoWithKieMonoBody_ok (env : KieGenEnv) (r : VideoGenerationResult)
    (h : generateVideoWithKieMonoBody env = Except.ok r) :
    r.status = "completed" ∧ r.downloadUrl ≠ "" ∧ r.model = "veo3_fast" ∧
      r.size = "unknown" ∧ r.seconds = "unknown" ∧
      ∃ pr l u2, (kiePollForCompletion env.check (10 * 60 * 1000) 10000 (by decide)).1
          = Except.ok pr ∧ pr.status = "completed" ∧ pr.videoUrls = some l ∧
          l.head? = some u2 ∧ u2 ≠ "" := by
  cases hc : createVideoWithKieMono env with
  | error e2 =>
    simp only [generateVideoWithKieMonoBody, hc] at h
    cases h
  | ok taskId =>
    cases hp : (kiePollForCompletion env.check (10 * 60 * 1000) 10000 (by decide)).1 with
    | error e3 =>
      simp only [generateVideoWithKieMonoBody, hc, hp] at h
      cases h
    | ok pr =>
      by_cases hcomp : pr.status = "completed"
      · cases hv : pr.videoUrls with
        | none =>
          simp only [generateVideoWithKieMonoBody, hc, hp, if_pos hcomp, hv] at h
          cases h
        | some urls =>
          rcases hd : downloadToBucket env.fetchVideo env.videoStore env.bucket urls.head? taskId
            with ⟨res, calls⟩
          cases res with
          | ok url =>
            simp only [generateVideoWithKieMonoBody, hc, hp, if_pos hcomp, hv, hd] at h
            injection h with h1
            have h2 : (downloadToBucket env.fetchVideo env.videoStore env.bucket urls.head? taskId).1
                = Except.ok url := by rw [hd]
            obtain ⟨hurl, u2, hsome, hne⟩ := downloadToBucket_fst_ok _ _ _ _ _ _ h2
            rw [← h1]
            refine ⟨hcomp, ?_, rfl, rfl, rfl, pr, urls, u2, rfl, hcomp, hv, hsome, hne⟩
            show url ≠ ""
            rw [hurl]
            exact publicUrl_ne_empty _ _
          | error e4 =>
            simp only [generateVideoWithKieMonoBody, hc, hp, if_pos hcomp, hv, hd] at h
            cases h
      · by_cases hfail : pr.status = "failed"
        · simp only [generateVideoWithKieMonoBody, hc, hp, if_neg hcomp, if_pos hfail] at h
          cases h
        · simp only [generateVideoWithKieMonoBody, hc, hp, if_neg hcomp, if_neg hfail] at h
          cases h

/-! ### Claim theorems -/

/-- C2: under the idealized clock, whenever every status check reports a
non-terminal state, the OpenAI poller performs exactly
`ceilDiv maxWaitDuration pollInterval` status checks and then fails with
the request-timeout (HTTP 408) error. -/
theorem C2_pending_timeout_exact_checks (retrieve : Nat → OpenAiRetrieve)
    (maxWaitTime pollInterval : Nat) (hpos : 0 < pollInterval)
    (h : ∀ j, openAiPending (retrieve j)) :
    pollForVideoCompletion retrieve maxWaitTime pollInterval hpos
      = (Except.error (JsError.http openAiTimeoutError), ceilDiv maxWaitTime pollInterval)
      ∧ openAiTimeoutError.status = REQUEST_TIMEOUT :=
  ⟨pollForVideoCompletion_pending retrieve maxWaitTime pollInterval hpos h, rfl⟩

/-- Witness for C2: deadline 3000 ms, interval 1000 ms, always-pending
provider status — exactly 3 checks before the 408 timeout. -/
theorem C2_pending_timeout_exact_checks_witness :
    pollForVideoCompletion (fun _ => OpenAiRetrieve.ok "queued" 0) 3000 1000 (by decide)
      = (Except.error (JsError.http openAiTimeoutError), 3)
      ∧ ceilDiv 3000 1000 = 3 := by
  refine ⟨?_, by decide⟩
  have h := (C2_pending_timeout_exact_checks (fun _ => OpenAiRetrieve.ok "queued" 0) 3000 1000
    (by decide) (fun j => ⟨"queued", 0, rfl, by decide⟩)).1
  rw [h]
  have h3 : ceilDiv 3000 1000 = 3 := by decide
  rw [h3]

/-- C1 as stated is false on this code: in the OpenAI provider variant a
transient error from the status check is not absorbed.  With a 3000 ms
deadline and 1000 ms interval (room for 3 checks), a network failure at the
first check makes the poller propagate that error after exactly 1 check,
instead of retrying until the deadline and timing out. -/
theorem C1_counterexample :
    pollForVideoCompletion (fun _ => OpenAiRetrieve.err "ECONNRESET") 3000 1000 (by decide)
      = (Except.error (JsError.other "ECONNRESET"), 1)
      ∧ JsError.other "ECONNRESET" ≠ JsError.http openAiTimeoutError
      ∧ (1 : Nat) ≠ ceilDiv 3000 1000 := by
  refine ⟨?_, by decide, by decide⟩
  simp [pollForVideoCompletion, openAiPollAux]

/-- C1 amended: only the Kie poller absorbs transient status-check errors —
if every check fails transiently (network or parse failure), the Kie poller
silently retries one interval per failure up to the deadline and ends in
the 408 timeout after `ceilDiv maxWaitTime pollInterval` checks; the OpenAI
poller instead propagates a transient retrieve error immediately, aborting
the loop after that check. -/
theorem C1_amended_transient_handling (check : Nat → KieFetch)
    (retrieve : Nat → OpenAiRetrieve) (maxWaitTime pollInterval : Nat)
    (hpos : 0 < pollInterval)
    (htrans : ∀ j, (∃ m, check j = KieFetch.netErr m) ∨
      ∃ o m, check j = KieFetch.resp o (KieStatusBody.parseErr m))
    (m0 : String) (hfirst : retrieve 0 = OpenAiRetrieve.err m0)
    (hposW : 0 < maxWaitTime) :
    kiePollForCompletion check maxWaitTime pollInterval hpos
      = (Except.error (JsError.http kieTimeoutError), ceilDiv maxWaitTime pollInterval)
      ∧ pollForVideoCompletion retrieve maxWaitTime pollInterval hpos
        = (Except.error (JsError.other m0), 1) := by
  constructor
  · apply kiePollForCompletion_nonterminal
    intro j r hr
    rcases htrans j with ⟨m, hm⟩ | ⟨o, m, hm⟩ <;> rw [hm] at hr <;> simp [checkStatus] at hr
  · unfold pollForVideoCompletion
    rw [openAiPollAux, if_pos hposW]
    simp only [hfirst]

/-- Witness for C1 amended: every check failing with a network error, a
3000 ms deadline and 1000 ms interval — the Kie poller times out after 3
absorbed failures while the OpenAI poller aborts after 1. -/
theorem C1_amended_transient_handling_witness :
    kiePollForCompletion (fun _ => KieFetch.netErr "ECONNRESET") 3000 1000 (by decide)
      = (Except.error (JsError.http kieTimeoutError), 3)
      ∧ pollForVideoCompletion (fun _ => OpenAiRetrieve.err "ECONNRESET") 3000 1000 (by decide)
        = (Except.error (JsError.other "ECONNRESET"), 1) := by
  have h := C1_amended_transient_handling (fun _ => KieFetch.netErr "ECONNRESET")
    (fun _ => OpenAiRetrieve.err "ECONNRESET") 3000 1000 (by decide)
    (fun j => Or.inl ⟨"ECONNRESET", rfl⟩) "ECONNRESET" rfl (by decide)
  refine ⟨?_, h.2⟩
  rw [h.1]
  have h3 : ceilDiv 3000 1000 = 3 := by decide
  rw [h3]

/-- C5: an unrecognized Kie `successFlag` (other than 0, 1, 2, 3) is treated
as pending — the poller just moves to the next interval — and if every
check reports such a flag the poll never terminates on it, running to the
deadline and ending in the 408 timeout (never a failure outcome). -/
theorem C5_unknown_flag_pending (check : Nat → KieFetch) (pollInterval : Nat)
    (hpos : 0 < pollInterval) :
    (∀ deadline now k result, now < deadline →
      checkStatus (check k) = Except.ok (some result) →
      ¬(result.data.successFlag = 0 ∨ result.data.successFlag = 1 ∨
        result.data.successFlag = 2 ∨ result.data.successFlag = 3) →
      kiePollAux check pollInterval hpos deadline now k
        = kiePollAux check pollInterval hpos deadline (now + pollInterval) (k + 1)) ∧
    (∀ maxWaitTime,
      (∀ j, ∃ rj, checkStatus (check j) = Except.ok (some rj) ∧
        ¬(rj.data.successFlag = 0 ∨ rj.data.successFlag = 1 ∨
          rj.data.successFlag = 2 ∨ rj.data.successFlag = 3)) →
      kiePollForCompletion check maxWaitTime pollInterval hpos
        = (Except.error (JsError.http kieTimeoutError), ceilDiv maxWaitTime pollInterval)) := by
  constructor
  · intro deadline now k result hlt hcs hflag
    push_neg at hflag
    obtain ⟨h0, h1, h2, h3⟩ := hflag
    conv_lhs => rw [kiePollAux]
    rw [if_pos hlt]
    simp only [hcs]
    rw [if_neg h0, if_neg h1,
      if_neg (show ¬(result.data.successFlag = 2 ∨ result.data.successFlag = 3) from
        fun hh => hh.elim h2 h3)]
  · intro maxWaitTime h
    apply kiePollForCompletion_nonterminal
    intro j r hr
    obtain ⟨rj, hrj, hflag⟩ := h j
    push_neg at hflag
    rw [hrj] at hr
    injection hr with h1
    injection h1 with h2
    rw [← h2]
    exact ⟨hflag.2.1, hflag.2.2.1, hflag.2.2.2⟩

/-- Witness for C5: every check yields `successFlag = 7`; one check is
consumed per interval and a 3000 ms deadline with 1000 ms interval ends in
the 408 timeout after 3 checks, never in a failure. -/
theorem C5_unknown_flag_pending_witness :
    kiePollAux (fun _ => KieFetch.resp true
        (KieStatusBody.parsed ⟨200, "ok", ⟨7, none⟩⟩)) 1000 (by decide) 3000 0 0
      = kiePollAux (fun _ => KieFetch.resp true
        (KieStatusBody.parsed ⟨200, "ok", ⟨7, none⟩⟩)) 1000 (by decide) 3000 1000 1
      ∧ kiePollForCompletion (fun _ => KieFetch.resp true
        (KieStatusBody.parsed ⟨200, "ok", ⟨7, none⟩⟩)) 3000 1000 (by decide)
        = (Except.error (JsError.http kieTimeoutError), 3) := by
  have h := C5_unknown_flag_pending (fun _ => KieFetch.resp true
    (KieStatusBody.parsed ⟨200, "ok", ⟨7, none⟩⟩)) 1000 (by decide)
  constructor
  · exact h.1 3000 0 0 ⟨200, "ok", ⟨7, none⟩⟩ (by decide) (by simp [checkStatus]) (by decide)
  · have h2 := h.2 3000 (fun j => ⟨⟨200, "ok", ⟨7, none⟩⟩, by simp [checkStatus], by decide⟩)
    rw [h2]
    have h3 : ceilDiv 3000 1000 = 3 := by decide
    rw [h3]

/-- C9: the Kie status-check helper is total — every transport failure,
JSON parse failure, non-success HTTP response, or payload code other than
200 yields `null` (never a thrown error) — and inside the poller a `null`
check consumes exactly one poll interval before the loop continues. -/
theorem C9_checkStatus_total_null :
    (∀ f, ∃ r, checkStatus f = Except.ok r) ∧
    (∀ m, checkStatus (KieFetch.netErr m) = Except.ok none) ∧
    (∀ o m, checkStatus (KieFetch.resp o (KieStatusBody.parseErr m)) = Except.ok none) ∧
    (∀ r, checkStatus (KieFetch.resp false (KieStatusBody.parsed r)) = Except.ok none) ∧
    (∀ o r, r.code ≠ 200 →
      checkStatus (KieFetch.resp o (KieStatusBody.parsed r)) = Except.ok none) ∧
    (∀ (check : Nat → KieFetch) (i : Nat) (hpos : 0 < i) (deadline now k : Nat),
      now < deadline → checkStatus (check k) = Except.ok none →
      kiePollAux check i hpos deadline now k
        = kiePollAux check i hpos deadline (now + i) (k + 1)) := by
  refine ⟨?_, fun m => rfl, fun o m => rfl, ?_, ?_, ?_⟩
  · intro f
    cases f with
    | netErr m => exact ⟨none, rfl⟩
    | resp o body =>
      cases body with
      | parseErr m => exact ⟨none, rfl⟩
      | parsed r =>
        by_cases hc : o = true ∧ r.code = 200
        · refine ⟨some r, ?_⟩
          simp [checkStatus, hc.1, hc.2]
        · refine ⟨none, ?_⟩
          simp only [checkStatus]
          rw [if_neg]
          intro hh
          exact hc ⟨hh.1, hh.2⟩
  · intro r
    simp [checkStatus]
  · intro o r hc
    simp [checkStatus, hc]
  · intro check i hpos deadline now k hlt hcs
    conv_lhs => rw [kiePollAux]
    rw [if_pos hlt]
    simp only [hcs]

/-- Witness for C9: a network failure at every check yields `null`, and in
the poller that single `null` advances the clock by exactly one interval. -/
theorem C9_checkStatus_total_null_witness :
    checkStatus (KieFetch.netErr "ETIMEDOUT") = Except.ok none
      ∧ kiePollAux (fun _ => KieFetch.netErr "ETIMEDOUT") 1000 (by decide) 3000 0 0
        = kiePollAux (fun _ => KieFetch.netErr "ETIMEDOUT") 1000 (by decide) 3000 1000 1 :=
  ⟨C9_checkStatus_total_null.2.1 "ETIMEDOUT",
    C9_checkStatus_total_null.2.2.2.2.2 (fun _ => KieFetch.netErr "ETIMEDOUT") 1000
      (by decide) 3000 0 0 (by decide) rfl⟩

/-- C10: whenever the OpenAI poller returns normally, the returned status is
exactly `completed` or `failed`; consequently the final `Unknown error
during video generation` branch of `generateVideo` is unreachable — that
error is never surfaced, for any environment. -/
theorem C10_poll_terminal_unknown_unreachable :
    (∀ (retrieve : Nat → OpenAiRetrieve) (m i : Nat) (hpos : 0 < i)
      (pr : OpenAiPollResult),
      (pollForVideoCompletion retrieve m i hpos).1 = Except.ok pr →
      pr.status = "completed" ∨ pr.status = "failed") ∧
    (∀ env : OpenAiGenEnv, generateVideo env
      ≠ Except.error (JsError.http
        { message := "Unknown error during video generation", status := INTERNAL_SERVER_ERROR })) := by
  constructor
  · intro retrieve m i hpos pr h
    exact openAiPoll_fst_ok retrieve m i hpos pr h
  · intro env h
    obtain ⟨he, hee, hcase⟩ := catchWrap_error _ _ _ h
    injection hee with h2
    rcases hcase with hbody | ⟨hgen, m, hbody⟩
    · rw [← h2] at hbody
      exact generateVideoBody_unknown env hbody
    · rw [← h2] at hgen
      exact absurd hgen (by decide)

/-- Witness for C10: a provider that reports `completed` at the first check
makes the poller return normally, and the theorem classifies that status. -/
theorem C10_poll_terminal_unknown_unreachable_witness :
    ({ status := "completed", progress := 100 } : OpenAiPollResult).status = "completed"
      ∨ ({ status := "completed", progress := 100 } : OpenAiPollResult).status = "failed" :=
  C10_poll_terminal_unknown_unreachable.1 (fun _ => OpenAiRetrieve.ok "completed" 100)
    3000 1000 (by decide) { status := "completed", progress := 100 }
    (by simp [pollForVideoCompletion, openAiPollAux])

/-- C4: a `VideoGenerationResult` is returned only when polling ended in
`completed` (with, for the Kie variants, a non-empty first result URL);
the returned record always carries status `completed` and a non-empty
download URL, in all three orchestrator variants.  Since `Except` results
are either `ok` or `error`, every other poll outcome makes `generate` fail
with an error rather than return a partial result. -/
theorem C4_result_requires_completed_nonempty :
    (∀ (env : OpenAiGenEnv) (r : VideoGenerationResult), generateVideo env = Except.ok r →
      r.status = "completed" ∧ r.downloadUrl ≠ "" ∧
      ∃ pr, (pollForVideoCompletion env.retrieve (5 * 60 * 1000) 5000 (by decide)).1
          = Except.ok pr ∧ pr.status = "completed") ∧
    (∀ (env : KieGenEnv) (r : VideoGenerationResult), generateVideoWithKie env = Except.ok r →
      r.status = "completed" ∧ r.downloadUrl ≠ "" ∧
      ∃ pr l u, (kiePollForCompletion env.check (10 * 60 * 1000) 10000 (by decide)).1
          = Except.ok pr ∧ pr.status = "completed" ∧ pr.videoUrls = some l ∧
          l.head? = some u ∧ u ≠ "") ∧
    (∀ (env : KieGenEnv) (r : VideoGenerationResult), generateVideoWithKieMono env = Except.ok r →
      r.status = "completed" ∧ r.downloadUrl ≠ "" ∧
      ∃ pr l u, (kiePollForCompletion env.check (10 * 60 * 1000) 10000 (by decide)).1
          = Except.ok pr ∧ pr.status = "completed" ∧ pr.videoUrls = some l ∧
          l.head? = some u ∧ u ≠ "") := by
  refine ⟨?_, ?_, ?_⟩
  · intro env r h
    exact generateVideoBody_ok env r (catchWrap_ok _ _ _ h)
  · intro env r h
    obtain ⟨h1, h2, _, _, _, pr, l, u, hrest⟩ :=
      generateVideoWithKieBody_ok env r (catchWrap_ok _ _ _ h)
    exact ⟨h1, h2, pr, l, u, hrest⟩
  · intro env r h
    obtain ⟨h1, h2, _, _, _, pr, l, u, hrest⟩ :=
      generateVideoWithKieMonoBody_ok env r (catchWrap_ok _ _ _ h)
    exact ⟨h1, h2, pr, l, u, hrest⟩

/-- C6: every failing execution of either orchestrator variant surfaces an
`HttpException` whose status is 408 or 500, and 408 occurs exactly for the
poll-deadline timeout exception of the respective variant; the internal
taxonomy (including the internal 413) is not surfaced. -/
theorem C6_error_propagation_policy :
    (∀ (env : OpenAiGenEnv) (e : JsError), generateVideo env = Except.error e →
      ∃ he, e = JsError.http he ∧
        (he.status = REQUEST_TIMEOUT ∨ he.status = INTERNAL_SERVER_ERROR) ∧
        (he.status = REQUEST_TIMEOUT → he = openAiTimeoutError)) ∧
    (∀ (env : KieGenEnv) (e : JsError), generateVideoWithKie env = Except.error e →
      ∃ he, e = JsError.http he ∧
        (he.status = REQUEST_TIMEOUT ∨ he.status = INTERNAL_SERVER_ERROR) ∧
        (he.status = REQUEST_TIMEOUT → he = kieTimeoutError)) ∧
    (∀ (env : KieGenEnv) (e : JsError), generateVideoWithKieMono env = Except.error e →
      ∃ he, e = JsError.http he ∧
        (he.status = REQUEST_TIMEOUT ∨ he.status = INTERNAL_SERVER_ERROR) ∧
        (he.status = REQUEST_TIMEOUT → he = kieTimeoutError)) :=
  ⟨generateVideo_error_class, generateVideoWithKie_error_class,
    generateVideoWithKieMono_error_class⟩

def envC4 : OpenAiGenEnv :=
  { image := none, imageStore := StoreOutcome.ok, timestamp := 0,
    create := OpenAiCreate.ok "vid1" 111 "sora-2" "720x1280" "4",
    retrieve := fun _ => OpenAiRetrieve.ok "completed" 100,
    download := DownloadOutcome.ok 5, videoStore := StoreOutcome.ok, bucket := "b" }

def resC4 : VideoGenerationResult :=
  { videoId := "vid1", status := "completed", createdAt := 111,
    downloadUrl := publicUrl "b" (openAiVideoKey "vid1"), model := "sora-2",
    size := "720x1280", seconds := "4" }

/-- Witness for C4: a concrete successful OpenAI run — image absent,
submission ok, first check `completed`, small artifact, store ok. -/
theorem C4_result_requires_completed_nonempty_witness :
    resC4.status = "completed" ∧ resC4.downloadUrl ≠ "" ∧
      ∃ pr, (pollForVideoCompletion envC4.retrieve (5 * 60 * 1000) 5000 (by decide)).1
          = Except.ok pr ∧ pr.status = "completed" :=
  C4_result_requires_completed_nonempty.1 envC4 resC4 (by
    simp [generateVideo, catchWrap, generateVideoBody, uploadImageStep, envC4,
      pollForVideoCompletion, openAiPollAux, streamVideoToBucket, saveVideo,
      MAX_VIDEO_SIZE, resC4])

def envC6 : OpenAiGenEnv :=
  { image := none, imageStore := StoreOutcome.ok, timestamp := 0,
    create := OpenAiCreate.err "socket hang up",
    retrieve := fun _ => OpenAiRetrieve.ok "queued" 0,
    download := DownloadOutcome.ok 5, videoStore := StoreOutcome.ok, bucket := "b" }

/-- Witness for C6: a submission failure surfaces as the generic 500, which
the classification confirms is an internal-error `HttpException`. -/
theorem C6_error_propagation_policy_witness :
    ∃ he, JsError.http { message := "Failed to generate video", status := INTERNAL_SERVER_ERROR }
        = JsError.http he ∧
      (he.status = REQUEST_TIMEOUT ∨ he.status = INTERNAL_SERVER_ERROR) ∧
      (he.status = REQUEST_TIMEOUT → he = openAiTimeoutError) :=
  C6_error_propagation_policy.1 envC6
    (JsError.http { message := "Failed to generate video", status := INTERNAL_SERVER_ERROR })
    (by simp [generateVideo, catchWrap, generateVideoBody, uploadImageStep, envC6])

def envC8 : KieGenEnv :=
  { image := none, imageStore := StoreOutcome.ok, timestamp := 0,
    submit := KieSubmitFetch.resp true "OK" (KieSubmitBody.parsed 200 "success" "task1"),
    check := fun _ => KieFetch.resp true
      (KieStatusBody.parsed ⟨200, "success", ⟨1, some ["http://r/video.mp4"]⟩⟩),
    fetchVideo := fun _ => KieDownloadFetch.resp true "OK" (KieDownloadBody.bytes 5),
    videoStore := StoreOutcome.ok, bucket := "b", nowAt := 222 }

def resC8 : VideoGenerationResult :=
  { videoId := "task1", status := "completed", createdAt := 222,
    downloadUrl := publicUrl "b" (kieVideoKey "task1"), model := "veo3_fast",
    size := "unknown", seconds := "unknown" }

/-- C8 as stated is false on this code: on a concrete successful Kie
generation the returned model field is the literal string `veo3_fast`, not
`unknown` (only size and duration are `unknown`). -/
theorem C8_counterexample :
    generateVideoWithKie envC8 = Except.ok resC8 ∧ resC8.model ≠ "unknown" := by
  constructor
  · simp [generateVideoWithKie, catchWrap, generateVideoWithKieBody, uploadImageStep,
      kieCreateVideo, envC8, kiePollForCompletion, kiePollAux, checkStatus,
      downloadToBucket, saveVideo, MAX_VIDEO_SIZE, resC8]
  · decide

/-- C8 amended: for every successful Kie generation (either orchestrator
shape), size and duration are reported as the literal string `unknown`,
while the model is reported as the literal string `veo3_fast`. -/
theorem C8_amended_metadata (env : KieGenEnv) (r : VideoGenerationResult)
    (h : generateVideoWithKie env = Except.ok r ∨ generateVideoWithKieMono env = Except.ok r) :
    r.model = "veo3_fast" ∧ r.size = "unknown" ∧ r.seconds = "unknown" := by
  rcases h with h | h
  · obtain ⟨_, _, h3, h4, h5, _⟩ := generateVideoWithKieBody_ok env r (catchWrap_ok _ _ _ h)
    exact ⟨h3, h4, h5⟩
  · obtain ⟨_, _, h3, h4, h5, _⟩ := generateVideoWithKieMonoBody_ok env r (catchWrap_ok _ _ _ h)
    exact ⟨h3, h4, h5⟩

/-- Witness for C8 amended at the concrete successful Kie run. -/
theorem C8_amended_metadata_witness :
    resC8.model = "veo3_fast" ∧ resC8.size = "unknown" ∧ resC8.seconds = "unknown" :=
  C8_amended_metadata envC8 resC8 (Or.inl (by
    simp [generateVideoWithKie, catchWrap, generateVideoWithKieBody, uploadImageStep,
      kieCreateVideo, envC8, kiePollForCompletion, kiePollAux, checkStatus,
      downloadToBucket, saveVideo, MAX_VIDEO_SIZE, resC8]))

/-- C3 as stated is false on this code: a downloaded artifact one byte over
100 MiB does abort before the save (no save call is recorded), but the
error surfaced by the download-and-store step is the generic 500 internal
storage error — the 413 payload-too-large exception is swallowed by that
step's catch, so payload-too-large semantics never reach the caller. -/
theorem C3_counterexample :
    streamVideoToBucket (DownloadOutcome.ok (MAX_VIDEO_SIZE + 1)) StoreOutcome.ok "b" "vid"
      = (Except.error (JsError.http
          { message := "Failed to upload video to storage", status := INTERNAL_SERVER_ERROR }), [])
      ∧ INTERNAL_SERVER_ERROR ≠ PAYLOAD_TOO_LARGE := by
  constructor
  · have hsv : saveVideo StoreOutcome.ok "b" (MAX_VIDEO_SIZE + 1) (openAiVideoKey "vid")
        = (Except.error (JsError.http payloadTooLargeError), []) := by
      simp only [saveVideo]
      rw [if_pos (by decide : MAX_VIDEO_SIZE + 1 > MAX_VIDEO_SIZE)]
    simp only [streamVideoToBucket, hsv]
  · decide

/-- C3 amended: for every artifact strictly larger than 100 MiB, the size
check raises the 413 payload-too-large exception and the store's save is
never invoked, but both download-and-store steps catch it and fail with
their generic 500 internal error, which is what the orchestration
surfaces. -/
theorem C3_amended_oversized (store : StoreOutcome) (bucket videoId taskId u st : String)
    (fetchVideo : String → KieDownloadFetch) (size : Nat)
    (hsz : size > MAX_VIDEO_SIZE) (hu : u ≠ "")
    (hf : fetchVideo u = KieDownloadFetch.resp true st (KieDownloadBody.bytes size)) :
    saveVideo store bucket size (openAiVideoKey videoId)
      = (Except.error (JsError.http payloadTooLargeError), []) ∧
    streamVideoToBucket (DownloadOutcome.ok size) store bucket videoId
      = (Except.error (JsError.http
          { message := "Failed to upload video to storage", status := INTERNAL_SERVER_ERROR }), []) ∧
    downloadToBucket fetchVideo store bucket (some u) taskId
      = (Except.error (JsError.http
          { message := "Failed to download and upload video from Kie", status := INTERNAL_SERVER_ERROR }), []) ∧
    payloadTooLargeError.status = PAYLOAD_TOO_LARGE := by
  have hsv : saveVideo store bucket size (openAiVideoKey videoId)
      = (Except.error (JsError.http payloadTooLargeError), []) := by
    simp only [saveVideo]
    rw [if_pos hsz]
  have hsv2 : saveVideo store bucket size (kieVideoKey taskId)
      = (Except.error (JsError.http payloadTooLargeError), []) := by
    simp only [saveVideo]
    rw [if_pos hsz]
  refine ⟨hsv, ?_, ?_, rfl⟩
  · simp only [streamVideoToBucket, hsv]
  · simp only [downloadToBucket]
    rw [if_neg hu, hf]
    simp only [hsv2]
    simp

/-- Witness for C3 amended at one byte over the limit. -/
theorem C3_amended_oversized_witness :
    saveVideo StoreOutcome.ok "b" (MAX_VIDEO_SIZE + 1) (openAiVideoKey "vid")
      = (Except.error (JsError.http payloadTooLargeError), [])
      ∧ downloadToBucket (fun _ => KieDownloadFetch.resp true "OK"
          (KieDownloadBody.bytes (MAX_VIDEO_SIZE + 1))) StoreOutcome.ok "b"
          (some "http://r/video.mp4") "task1"
        = (Except.error (JsError.http
            { message := "Failed to download and upload video from Kie", status := INTERNAL_SERVER_ERROR }), []) := by
  have h := C3_amended_oversized StoreOutcome.ok "b" "vid" "task1" "http://r/video.mp4" "OK"
    (fun _ => KieDownloadFetch.resp true "OK" (KieDownloadBody.bytes (MAX_VIDEO_SIZE + 1)))
    (MAX_VIDEO_SIZE + 1) (by decide) (by decide) rfl
  exact ⟨h.1, h.2.2.1⟩

/-- C7 as stated is false on this code: the OpenAI variant stores the output
under `videos/<jobId>.mp4` with no provider tag — for job id `v1` there is
no providerTag string making the stored key match
`videos/<providerTag>-<jobId>.mp4` (a length argument), even though the
store call and URL derivation otherwise behave as described. -/
theorem C7_counterexample :
    streamVideoToBucket (DownloadOutcome.ok 5) StoreOutcome.ok "b" "v1"
      = (Except.ok (publicUrl "b" (openAiVideoKey "v1")),
         [{ fileName := openAiVideoKey "v1", size := 5 }])
      ∧ ¬ ∃ tag, openAiVideoKey "v1" = "videos/" ++ tag ++ "-" ++ "v1" ++ ".mp4" := by
  constructor
  · have hsv : saveVideo StoreOutcome.ok "b" 5 (openAiVideoKey "v1")
        = (Except.ok (publicUrl "b" (openAiVideoKey "v1")),
           [{ fileName := openAiVideoKey "v1", size := 5 }]) := by
      simp only [saveVideo]
      rw [if_neg (by decide : ¬ (5 : Nat) > MAX_VIDEO_SIZE)]
    simp only [streamVideoToBucket, hsv]
  · rintro ⟨tag, htag⟩
    have hl := congrArg String.length htag
    simp only [openAiVideoKey, String.length_append] at hl
    have c1 : String.length "videos/" = 7 := by decide
    have c2 : String.length "v1" = 2 := by decide
    have c3 : String.length ".mp4" = 4 := by decide
    have c4 : String.length "-" = 1 := by decide
    rw [c1, c2, c3, c4] at hl
    omega

/-- C7 amended: the Kie variant stores under `videos/kie-<jobId>.mp4`
(provider tag `kie`), the OpenAI variant under the untagged
`videos/<jobId>.mp4`; for both, the returned URL is derived
deterministically as `https://storage.googleapis.com/<bucket>/<key>`. -/
theorem C7_amended_key_scheme (bucket videoId taskId u st : String) (size : Nat)
    (fetchVideo : String → KieDownloadFetch)
    (hsz : ¬ size > MAX_VIDEO_SIZE) (hu : u ≠ "")
    (hf : fetchVideo u = KieDownloadFetch.resp true st (KieDownloadBody.bytes size)) :
    streamVideoToBucket (DownloadOutcome.ok size) StoreOutcome.ok bucket videoId
      = (Except.ok (publicUrl bucket (openAiVideoKey videoId)),
         [{ fileName := openAiVideoKey videoId, size := size }]) ∧
    downloadToBucket fetchVideo StoreOutcome.ok bucket (some u) taskId
      = (Except.ok (publicUrl bucket (kieVideoKey taskId)),
         [{ fileName := kieVideoKey taskId, size := size }]) ∧
    openAiVideoKey videoId = "videos/" ++ videoId ++ ".mp4" ∧
    kieVideoKey taskId = "videos/" ++ "kie" ++ "-" ++ taskId ++ ".mp4" ∧
    publicUrl bucket (kieVideoKey taskId)
      = "https://storage.googleapis.com/" ++ bucket ++ "/" ++ kieVideoKey taskId := by
  have hsv : saveVideo StoreOutcome.ok bucket size (openAiVideoKey videoId)
      = (Except.ok (publicUrl bucket (openAiVideoKey videoId)),
         [{ fileName := openAiVideoKey videoId, size := size }]) := by
    simp only [saveVideo]
    rw [if_neg hsz]
  have hsv2 : saveVideo StoreOutcome.ok bucket size (kieVideoKey taskId)
      = (Except.ok (publicUrl bucket (kieVideoKey taskId)),
         [{ fileName := kieVideoKey taskId, size := size }]) := by
    simp only [saveVideo]
    rw [if_neg hsz]
  refine ⟨?_, ?_, rfl, ?_, rfl⟩
  · simp only [streamVideoToBucket, hsv]
  · simp only [downloadToBucket]
    rw [if_neg hu, hf]
    simp only [hsv2]
    simp
  · show "videos/kie-" ++ taskId ++ ".mp4" = "videos/" ++ "kie" ++ "-" ++ taskId ++ ".mp4"
    rw [show "videos/" ++ "kie" ++ "-" = "videos/kie-" from by decide]

/-- Witness for C7 amended at concrete inputs. -/
theorem C7_amended_key_scheme_witness :
    streamVideoToBucket (DownloadOutcome.ok 5) StoreOutcome.ok "b" "vid9"
      = (Except.ok (publicUrl "b" (openAiVideoKey "vid9")),
         [{ fileName := openAiVideoKey "vid9", size := 5 }])
      ∧ downloadToBucket (fun _ => KieDownloadFetch.resp true "OK" (KieDownloadBody.bytes 5))
          StoreOutcome.ok "b" (some "http://r/video.mp4") "task9"
        = (Except.ok (publicUrl "b" (kieVideoKey "task9")),
           [{ fileName := kieVideoKey "task9", size := 5 }])
      ∧ kieVideoKey "task9" = "videos/" ++ "kie" ++ "-" ++ "task9" ++ ".mp4" := by
  have h := C7_amended_key_scheme "b" "vid9" "task9" "http://r/video.mp4" "OK" 5
    (fun _ => KieDownloadFetch.resp true "OK" (KieDownloadBody.bytes 5))
    (by decide) (by decide) rfl
  exact ⟨h.1, h.2.1, h.2.2.2.1⟩
